import Mathlib

/-!
Verification development for the contabot backend dialogue core.

We give a shallow embedding, in Lean, of the dialogue-resolution engine of
the repository: the Spanish period parser (`app/services/periodo_parser.py`),
the rule-based intent classifier and dialogue engine
(`app/services/agent_logic.py`), the customer resolution helper
(`app/db/queries.py`), and the WhatsApp identity/OTP gateway
(`app/services/wa_gateway.py`).

Conventions of the embedding:
* Python strings are Lean `String`s; scanning helpers work on `List Char`.
* The handful of regular expressions in the source are fixed patterns; each
  one is embedded as a dedicated scanner that follows Python `re` semantics
  for that concrete pattern (leftmost match, alternation order, greedy
  optional groups with backtracking, `\b` word boundaries).
* `datetime.now()` is an explicit `PDate` argument; timestamps in the
  gateway are abstract `Int` instants measured in minutes.
* Python truthiness of optional values is modelled by explicit `truthy`
  helpers (`None`, `0` and `""` are falsy).
* Mutation of the per-session context dict and of the database tables is
  modelled by explicit state passing; raised exceptions by `Except`.
* The SQL tables behind the gateway are embedded as explicit lists; the
  read-only reporting views behind the dialogue engine are abstract
  functions in a `DB` record, and each executed query is recorded in a
  trace so that "no query runs" claims are expressible.
-/

namespace Contabot

/-! ## Character and string utilities (Python semantics) -/

/-- Python `\s` / `str.strip` whitespace (ASCII part, which is all the
source ever feeds it). -/
def isSpaceC (c : Char) : Bool :=
  c = ' ' || c = '\t' || c = '\n' || c = '\r' || c = '\x0b' || c = '\x0c'

/-- ASCII digit. -/
def isDigitC (c : Char) : Bool := '0' ≤ c && c ≤ '9'

/-- Characters of the accented Spanish alphabet appearing in the source. -/
def isAccentedC (c : Char) : Bool :=
  c = 'á' || c = 'é' || c = 'í' || c = 'ó' || c = 'ú' || c = 'ñ' || c = 'ü' ||
  c = 'Á' || c = 'É' || c = 'Í' || c = 'Ó' || c = 'Ú' || c = 'Ñ' || c = 'Ü'

/-- Python `\w` (word character) for the inputs this code base handles:
ASCII alphanumerics, underscore, accented Spanish letters. -/
def isWordC (c : Char) : Bool :=
  ('a' ≤ c && c ≤ 'z') || ('A' ≤ c && c ≤ 'Z') || isDigitC c || c = '_' || isAccentedC c

/-- Python `str.lower` on the alphabet the source handles. -/
def lowerC (c : Char) : Char :=
  if 'A' ≤ c && c ≤ 'Z' then Char.ofNat (c.toNat + 32)
  else if c = 'Á' then 'á' else if c = 'É' then 'é' else if c = 'Í' then 'í'
  else if c = 'Ó' then 'ó' else if c = 'Ú' then 'ú' else if c = 'Ñ' then 'ñ'
  else if c = 'Ü' then 'ü' else c

def pyLower (s : String) : String := String.mk (s.toList.map lowerC)

/-- Python `str.strip()`. -/
def pyStrip (s : String) : String :=
  String.mk (((s.toList.dropWhile isSpaceC).reverse.dropWhile isSpaceC).reverse)

/-- `needle` is a prefix of `hay` (as char lists). -/
def listPrefix : List Char → List Char → Bool
  | [], _ => true
  | _ :: _, [] => false
  | a :: as, b :: bs => a = b && listPrefix as bs

/-- Python `needle in hay` substring test, on char lists. -/
def listContains (needle : List Char) : List Char → Bool
  | [] => listPrefix needle []
  | c :: rest => listPrefix needle (c :: rest) || listContains needle rest

/-- Python `needle in hay` substring test. -/
def containsSub (needle hay : String) : Bool :=
  listContains needle.toList hay.toList

/-- Digits of a string, in order (Python `"".join(ch for ch in s if ch.isdigit())`
and `re.sub(r"\D", "", s)`). -/
def digitsOnly (s : String) : String :=
  String.mk (s.toList.filter isDigitC)

/-- Numeric value of an ASCII digit character. -/
def digitVal (c : Char) : Nat := c.toNat - '0'.toNat

/-- Python truthiness of an optional integer (None and 0 are falsy). -/
def truthyN : Option Nat → Bool
  | none => false
  | some n => n ≠ 0

/-- Python truthiness of an optional string (None and "" are falsy). -/
def truthyS : Option String → Bool
  | none => false
  | some s => s ≠ ""

/-- Python `a or b` on optional strings. -/
def pyOrS (a b : Option String) : Option String :=
  if truthyS a then a else b

/-- Python `a or b` on optional naturals. -/
def pyOrN (a b : Option Nat) : Option Nat :=
  if truthyN a then a else b

/-- Left-pad a decimal string with zeros to width `w` (Python `0`-padding). -/
def padZeros (w : Nat) (s : String) : String :=
  if s.length < w then String.mk (List.replicate (w - s.length) '0') ++ s else s

/-- Python `f"{n:04d}"` for an arbitrary integer. -/
def pad4Int (y : Int) : String :=
  if y < 0 then "-" ++ padZeros 3 (toString y.natAbs) else padZeros 4 (toString y.natAbs)

/-- Python `f"{n:02d}"` for an arbitrary integer. -/
def pad2Int (m : Int) : String :=
  if m < 0 then "-" ++ padZeros 1 (toString m.natAbs) else padZeros 2 (toString m.natAbs)

/-- Python `str` of an optional integer as interpolated by an f-string
(`None` prints as `"None"`). -/
def pyStrOptInt : Option Int → String
  | none => "None"
  | some n => if n < 0 then "-" ++ toString n.natAbs else toString n.natAbs

/-- Python `str` of an optional string as interpolated by an f-string. -/
def pyStrOptStr : Option String → String
  | none => "None"
  | some s => s

/-! ## Embedded regular-expression scanners

Each scanner embeds one concrete pattern from the source, with Python `re`
semantics (leftmost match; alternatives tried left to right; greedy optional
pieces with backtracking; `\b` = word/non-word boundary). -/

/-- `\b` holds between a previous character (none at start of string) and
the rest of the input. -/
def boundaryAfter : List Char → Bool
  | [] => true
  | c :: _ => !isWordC c

/-- Try to match `(20\d{2})-(0[1-9]|1[0-2])\b` at the head of the input,
returning the matched text. -/
def periodoTokenAt : List Char → Option String
  | '2' :: '0' :: a :: b :: '-' :: m1 :: m2 :: rest =>
    if isDigitC a && isDigitC b &&
       ((m1 = '0' && '1' ≤ m2 && m2 ≤ '9') || (m1 = '1' && '0' ≤ m2 && m2 ≤ '2')) &&
       boundaryAfter rest then
      some (String.mk ['2', '0', a, b, '-', m1, m2])
    else none
  | _ => none

/-- Scanner for `re.search(r"\b(20\d{2})-(0[1-9]|1[0-2])\b", s)`:
`prev` says whether the character before the current position is a word
character (false at the start of the string). -/
def scanPeriodoToken (prev : Bool) : List Char → Option String
  | [] => none
  | c :: rest =>
    match if prev then none else periodoTokenAt (c :: rest) with
    | some m => some m
    | none => scanPeriodoToken (isWordC c) rest

/-- `re.search(r"\b(20\d{2})-(0[1-9]|1[0-2])\b", s)`, returning the matched
`YYYY-MM` text. -/
def findYYYYMM (s : String) : Option String :=
  scanPeriodoToken false s.toList

/-- The month-name alternation of `periodo_parser.py`, flattened in Python
matching order: alternatives left to right, and inside one alternative the
greedy expansions of its optional groups, longest first (so
`sep(?:t)?(?:iembre)?` tries `septiembre`, `sept`, `sepiembre`, `sep`). -/
def monthExpansions : List String :=
  ["enero", "ene", "febrero", "feb", "marzo", "mar", "abril", "abr",
   "mayo", "may", "junio", "jun", "julio", "jul", "agosto", "ago",
   "septiembre", "sept", "sepiembre", "sep", "octubre", "oct",
   "noviembre", "nov", "diciembre", "dic"]

/-- The `MESES` dict of `periodo_parser.py`. -/
def MESES (k : String) : Option Nat :=
  List.lookup k
    [("ene", 1), ("enero", 1), ("feb", 2), ("febrero", 2), ("mar", 3), ("marzo", 3),
     ("abr", 4), ("abril", 4), ("may", 5), ("mayo", 5), ("jun", 6), ("junio", 6),
     ("jul", 7), ("julio", 7), ("ago", 8), ("agosto", 8), ("sep", 9), ("sept", 9),
     ("septiembre", 9), ("oct", 10), ("octubre", 10), ("nov", 11), ("noviembre", 11),
     ("dic", 12), ("diciembre", 12)]

/-- `mes_txt[:3]`. -/
def take3 (s : String) : String := String.mk (s.toList.take 3)

/-- `MESES.get(mes_txt[:3]) or MESES.get(mes_txt)`. -/
def mesOf (mesTxt : String) : Option Nat :=
  pyOrN (MESES (take3 mesTxt)) (MESES mesTxt)

/-- Try each month expansion at the head of the input; on success return the
matched text and the rest of the input after it. `\b` must hold after the
match. -/
def monthAt (cs : List Char) : Option (String × List Char) :=
  monthExpansions.findSome? fun e =>
    if listPrefix e.toList cs && boundaryAfter (cs.drop e.toList.length) then
      some (e, cs.drop e.toList.length)
    else none

/-- Scanner for branch 3 of the parser,
`re.search(r"\b(ene(?:ro)?|...|dic(?:iembre)?)\b", t)`. -/
def scanMonth (prev : Bool) : List Char → Option String
  | [] => none
  | c :: rest =>
    match if prev then none else monthAt (c :: rest) with
    | some (m, _) => some m
    | none => scanMonth (isWordC c) rest

def findMonth (cs : List Char) : Option String := scanMonth false cs

/-- Match `\s+(20\d{2})\b` at the head of the input, returning the year. -/
def spacesYearAt (cs : List Char) : Option Nat :=
  let sp := cs.takeWhile isSpaceC
  let rest := cs.dropWhile isSpaceC
  if sp.length = 0 then none
  else
    match rest with
    | '2' :: '0' :: a :: b :: rest2 =>
      if isDigitC a && isDigitC b && boundaryAfter rest2 then
        some (2000 + 10 * digitVal a + digitVal b)
      else none
    | _ => none

/-- Match `(?:\s+de)?\s+(20\d{2})\b` at the head of the input (the
continuation of branch 2 of the parser after the month name).  The greedy
path through `(?:\s+de)?` is tried first, then the empty one. -/
def deYearAt (cs : List Char) : Option Nat :=
  let pathA :=
    let sp := cs.takeWhile isSpaceC
    let rest := cs.dropWhile isSpaceC
    if sp.length = 0 then none
    else
      match rest with
      | 'd' :: 'e' :: rest2 => spacesYearAt rest2
      | _ => none
  match pathA with
  | some y => some y
  | none => spacesYearAt cs

/-- Try branch 2's whole pattern at the head of the input: a month
expansion, `\b`, then `(?:\s+de)?\s+(20\d{2})\b`. Within one start
position the expansions are tried in `monthExpansions` order. -/
def monthYearAt (cs : List Char) : Option (String × Nat) :=
  monthExpansions.findSome? fun e =>
    if listPrefix e.toList cs && boundaryAfter (cs.drop e.toList.length) then
      match deYearAt (cs.drop e.toList.length) with
      | some y => some (e, y)
      | none => none
    else none

/-- Scanner for branch 2 of the parser,
`re.search(r"\b(ene(?:ro)?|...)\b(?:\s+de)?\s+(20\d{2})\b", t)`. -/
def scanMonthYear (prev : Bool) : List Char → Option (String × Nat)
  | [] => none
  | c :: rest =>
    match if prev then none else monthYearAt (c :: rest) with
    | some my => some my
    | none => scanMonthYear (isWordC c) rest

def findMonthYear (cs : List Char) : Option (String × Nat) := scanMonthYear false cs

/-! ## Period parser (`app/services/periodo_parser.py`) -/

/-- The value of `datetime.now()` as the parser uses it. -/
structure PDate where
  year : Int
  month : Int
  deriving DecidableEq, Repr

/-- `_to_periodo`: `f"{year:04d}-{month:02d}"`. -/
def _to_periodo (y m : Int) : String := pad4Int y ++ "-" ++ pad2Int m

/-- `_add_months`: Python `//` and `%` are floor division and floor
modulus, i.e. `Int.fdiv` / `Int.fmod`. -/
def _add_months (y m delta : Int) : Int × Int :=
  let total := y * 12 + (m - 1) + delta
  (Int.fdiv total 12, Int.fmod total 12 + 1)

/-- `f"... Ej: 2025-{mes:02d}"` interpolation of the (provably always
present) month number in branch 3 of the parser. -/
def pad2OptNat : Option Nat → String
  | none => ""
  | some m => pad2Int (Int.ofNat m)

/-- `parse_periodo_es(texto)` with `datetime.now()` passed explicitly.
Returns `(periodo, error, pending_month)`. -/
def parse_periodo_es (now : PDate) (texto : String) : Option String × Option String × Option Nat :=
  let t := pyStrip (pyLower texto)
  -- 1) literal YYYY-MM anywhere in the *original* text
  match findYYYYMM texto with
  | some p => (some p, none, none)
  | none =>
  -- 2) month name followed by a year, optionally joined by "de"
  let b2 : Option String :=
    match findMonthYear t.toList with
    | some (mesTxt, anio) =>
      match mesOf mesTxt with
      | some mes => if mes ≠ 0 then some (_to_periodo (Int.ofNat anio) (Int.ofNat mes)) else none
      | none => none
    | none => none
  match b2 with
  | some p => (some p, none, none)
  | none =>
  -- 3) bare month name
  match findMonth t.toList with
  | some mesTxt =>
    let mes := mesOf mesTxt
    (none, some ("¿De qué año es " ++ mesTxt ++ "? Ej: 2025-" ++ pad2OptNat mes), mes)
  | none =>
  -- 4) relative phrases
  if containsSub "este mes" t || containsSub "mes actual" t then
    (some (_to_periodo now.year now.month), none, none)
  else if containsSub "mes pasado" t || containsSub "mes anterior" t then
    let ym := _add_months now.year now.month (-1)
    (some (_to_periodo ym.1 ym.2), none, none)
  else if containsSub "mes que viene" t || containsSub "proximo mes" t ||
          containsSub "próximo mes" t || containsSub "mes siguiente" t then
    let ym := _add_months now.year now.month 1
    (some (_to_periodo ym.1 ym.2), none, none)
  else (none, none, none)

/-! ## Customer-reference extraction (`_extract_cliente_ref` in
`app/services/agent_logic.py`) -/

/-- Try `(cuit|email)\s*[:=]?\s*([^\s]+)` at the head of the input (the
leading `\b` is checked by the scanner).  Backtracking note: if the
optional `[:=]` was consumed greedily but no non-space run follows, the
regex backtracks and the `:`/`=` character itself starts the captured
group. -/
def labelRefAt (cs : List Char) : Option String :=
  let tryKw : List Char → Option String := fun kw =>
    if listPrefix kw cs then
      let k := (cs.drop kw.length).dropWhile isSpaceC
      match k with
      | [] => none
      | c :: rest2 =>
        if c = ':' || c = '=' then
          let run := (rest2.dropWhile isSpaceC).takeWhile (fun d => !isSpaceC d)
          if run ≠ [] then some (String.mk run)
          else some (String.mk (k.takeWhile (fun d => !isSpaceC d)))
        else some (String.mk (k.takeWhile (fun d => !isSpaceC d)))
    else none
  match tryKw "cuit".toList with
  | some r => some r
  | none => tryKw "email".toList

/-- Scanner for `re.search(r"\b(cuit|email)\s*[:=]?\s*([^\s]+)", msg_l)`,
returning capture group 2. -/
def scanLabelRef (prev : Bool) : List Char → Option String
  | [] => none
  | c :: rest =>
    match if prev then none else labelRefAt (c :: rest) with
    | some r => some r
    | none => scanLabelRef (isWordC c) rest

/-- Try `(\d{2}-\d{8}-\d{1})\b` at the head of the input. -/
def cuitDashAt : List Char → Option String
  | a1 :: a2 :: '-' :: b1 :: b2 :: b3 :: b4 :: b5 :: b6 :: b7 :: b8 :: '-' :: c1 :: rest =>
    if ([a1, a2, b1, b2, b3, b4, b5, b6, b7, b8, c1].all isDigitC) && boundaryAfter rest then
      some (String.mk [a1, a2, '-', b1, b2, b3, b4, b5, b6, b7, b8, '-', c1])
    else none
  | _ => none

/-- Scanner for `re.search(r"\b(\d{2}-\d{8}-\d{1})\b", msg_l)`. -/
def scanCuitDash (prev : Bool) : List Char → Option String
  | [] => none
  | c :: rest =>
    match if prev then none else cuitDashAt (c :: rest) with
    | some r => some r
    | none => scanCuitDash (isWordC c) rest

/-- Try `(\d{11})\b` at the head of the input. -/
def digits11At (cs : List Char) : Option String :=
  let run := cs.take 11
  if run.length = 11 && run.all isDigitC && boundaryAfter (cs.drop 11) then
    some (String.mk run)
  else none

/-- Scanner for `re.search(r"\b(\d{11})\b", msg_l)`. -/
def scanDigits11 (prev : Bool) : List Char → Option String
  | [] => none
  | c :: rest =>
    match if prev then none else digits11At (c :: rest) with
    | some r => some r
    | none => scanDigits11 (isWordC c) rest

/-- `f"{raw[:2]}-{raw[2:10]}-{raw[10:]}"`. -/
def dashCuit (raw : String) : String :=
  String.mk (raw.toList.take 2) ++ "-" ++ String.mk ((raw.toList.drop 2).take 8) ++ "-" ++
    String.mk (raw.toList.drop 10)

/-- `_extract_cliente_ref(msg_l)`. -/
def _extract_cliente_ref (msgL : String) : Option String :=
  let cs := msgL.toList
  match scanLabelRef false cs with
  | some r => some (pyStrip r)
  | none =>
  match scanCuitDash false cs with
  | some r => some r
  | none =>
  match scanDigits11 false cs with
  | some raw => some (dashCuit raw)
  | none => none

/-! ## Rule-based intent classifier (`_detect_intent_rules`) -/

/-- `_detect_intent_rules(msg_l)`. -/
def _detect_intent_rules (msgL : String) : String :=
  if containsSub "situacion fiscal" msgL || containsSub "monotrib" msgL ||
     containsSub "responsable" msgL then "situacion_fiscal"
  else if containsSub "vence" msgL || containsSub "vencim" msgL ||
     containsSub "pendiente" msgL then "vencimientos_proximos"
  else if ["ventas", "venta", "facturacion", "facturación", "ingresos"].any
      (fun k => containsSub k msgL) then "ventas_resumen_periodo"
  else if ["compras", "compra", "gastos"].any (fun k => containsSub k msgL) then
    "compras_resumen_periodo"
  else if ["resultado", "gané", "gane", "perdí", "perdi", "balance"].any
      (fun k => containsSub k msgL) then "resultado_periodo"
  else if containsSub "iva" msgL then "iva_resumen_periodo"
  else if containsSub "document" msgL || containsSub "constancia" msgL ||
     containsSub "ddjj" msgL then "documentos"
  else "unknown"

/-- Spec-side rendering of §4.2 of the spec: the keyword categories as
data, in the documented priority order; the first category one of whose
keywords the text contains wins, otherwise `unknown`.  Used to compare the
source classifier against the spec's description (claim C8). -/
def specCategories : List (String × List String) :=
  [("situacion_fiscal", ["situacion fiscal", "monotrib", "responsable"]),
   ("vencimientos_proximos", ["vence", "vencim", "pendiente"]),
   ("ventas_resumen_periodo", ["ventas", "venta", "facturacion", "facturación", "ingresos"]),
   ("compras_resumen_periodo", ["compras", "compra", "gastos"]),
   ("resultado_periodo", ["resultado", "gané", "gane", "perdí", "perdi", "balance"]),
   ("iva_resumen_periodo", ["iva"]),
   ("documentos", ["document", "constancia", "ddjj"])]

/-- Modelled from the spec (§4.2): first matching category wins, else
`unknown`. -/
def classifySpec (msgL : String) : String :=
  match specCategories.find? (fun cat => cat.2.any (fun k => containsSub k msgL)) with
  | some cat => cat.1
  | none => "unknown"

/-! ## Customer resolution (`ensure_cliente` in `app/db/queries.py`) -/

/-- `_is_email`: `re.fullmatch(r"[^@\s]+@[^@\s]+\.[^@\s]+", s.strip())`.
The pattern is equivalent to: after stripping, no whitespace anywhere,
exactly one `@` with a non-empty part before it, and a `.` at an interior
position of the non-empty part after the `@`. -/
def _is_email (s : String) : Bool :=
  let cs := (pyStrip s).toList
  let a := cs.takeWhile (fun c => c ≠ '@')
  match cs.dropWhile (fun c => c ≠ '@') with
  | '@' :: b =>
    a ≠ [] && a.all (fun c => !isSpaceC c) &&
    b ≠ [] && b.all (fun c => c ≠ '@' && !isSpaceC c) &&
    (b.drop 1).dropLast.contains '.'
  | _ => false

/-- The relational state `ensure_cliente` and the reporting views read.
Lookups are abstract functions; `freshId` is the `id_cliente` the
`INSERT` + re-`SELECT` pair in `ensure_cliente` would produce for a newly
created customer row (the most recently created match). -/
structure VencRow where
  impuesto : String
  periodo : String
  fecha_vto : String
  deriving DecidableEq, Repr

structure IvaRow where
  razon_social : Option String := none
  resultado : Option String := none
  iva_debito : Option Int := none
  iva_credito : Option Int := none
  perc_iva : Option Int := none
  ret_iva : Option Int := none
  saldo_iva_calculado : Option Int := none
  deriving DecidableEq, Repr

structure VentasRow where
  razon_social : Option String := none
  ventas_neto : Option Int := none
  ventas_iva : Option Int := none
  ventas_total : Option Int := none
  deriving DecidableEq, Repr

structure ComprasRow where
  razon_social : Option String := none
  compras_neto : Option Int := none
  compras_iva : Option Int := none
  compras_total : Option Int := none
  deriving DecidableEq, Repr

structure ResRow where
  razon_social : Option String := none
  ventas_total : Option Int := none
  total_ventas : Option Int := none
  ventas : Option Int := none
  compras_total : Option Int := none
  total_compras : Option Int := none
  compras : Option Int := none
  resultado : Option Int := none
  resultado_total : Option Int := none
  deriving DecidableEq, Repr

structure SitRow where
  impuesto : String
  periodicidad : Option String := none
  deriving DecidableEq, Repr

structure DocRow where
  tipo : Option String := none
  titulo : Option String := none
  url_archivo : Option String := none
  fecha_documento : Option String := none
  created_at : Option String := none
  deriving DecidableEq, Repr

structure DB where
  emailCliente : String → Option Nat
  cuitCliente : String → Option Nat
  freshId : Nat
  vencimientos : Option Nat → String → List VencRow
  vencidosRecientes : Option Nat → Nat
  iva : Option Nat → Option String → Option IvaRow
  ventas : Option Nat → Option String → Option VentasRow
  compras : Option Nat → Option String → Option ComprasRow
  resultado : Option Nat → Option String → Option ResRow
  situacionFiscal : Option Nat → List SitRow
  documentos : Option Nat → List DocRow

/-- `ensure_cliente(db, cliente_ref)`: returns the customer id or raises
(`Except.error` carries the `ValueError` message). -/
def ensure_cliente (db : DB) (clienteRef : String) : Except String Nat :=
  let ref := pyLower (pyStrip clienteRef)
  if ref = "" then .error "cliente_ref vacío"
  else if _is_email ref then
    match db.emailCliente ref with
    | some idc => .ok idc
    | none => .ok db.freshId
  else
    let cuitDigits := digitsOnly ref
    if cuitDigits.length ≠ 11 then .error "CUIT inválido"
    else
      match db.cuitCliente cuitDigits with
      | some idc => .ok idc
      | none => .ok db.freshId

/-! ## Dialogue engine (`handle_agent` in `app/services/agent_logic.py`) -/

/-- The per-session context dict (`SESSION_CTX[session_id]`), with the keys
`handle_agent` reads and writes; an absent key is `none`. -/
structure Ctx where
  cliente_ref : Option String := none
  id_cliente : Option Nat := none
  pending_month : Option Nat := none
  pending_intent : Option String := none
  deriving DecidableEq, Repr

/-- Structured payload in `AgentResponse.data`. -/
inductive AgentData where
  | idCliente (n : Nat)
  | vencimientos (v : List VencRow)
  | iva (r : IvaRow)
  | ventas (r : VentasRow)
  | compras (r : ComprasRow)
  | resultado (r : ResRow)
  | impuestos (l : List SitRow)
  | documentos (l : List DocRow)
  deriving DecidableEq, Repr

structure AgentResponse where
  intent : String
  reply : String
  missing : List String := []
  data : Option AgentData := none
  deriving DecidableEq, Repr

/-- The storage queries `handle_agent` can execute, recorded in a trace. -/
inductive AQuery where
  | ensureCliente (ref : String)
  | getVencimientos (idc : Option Nat) (mode : String)
  | countVencidos (idc : Option Nat)
  | getIva (idc : Option Nat) (periodo : Option String)
  | getVentas (idc : Option Nat) (periodo : Option String)
  | getCompras (idc : Option Nat) (periodo : Option String)
  | getResultado (idc : Option Nat) (periodo : Option String)
  | getSituacion (idc : Option Nat)
  | getDocumentos (idc : Option Nat)
  deriving DecidableEq, Repr

deriving instance DecidableEq for Except

/-- Result of one `handle_agent` call: the returned value (or the raised
exception), the session context as left behind, and the storage queries
executed. -/
structure HAResult where
  res : Except String AgentResponse
  ctx : Ctx
  trace : List AQuery
  deriving DecidableEq, Repr

/-- Python truthiness of an optional `int`-typed value. -/
def truthyI : Option Int → Bool
  | none => false
  | some n => n ≠ 0

/-- Python `a or b` on optional ints. -/
def pyOrI (a b : Option Int) : Option Int :=
  if truthyI a then a else b

/-- Python `(a or b or c) or 0` tail: collapse an optional int to an int. -/
def pyOrIZ : Option Int → Int
  | none => 0
  | some n => if n ≠ 0 then n else 0

/-- Group the decimal digits of a natural in threes with `.` separators
(the result of Python's `f"{value:,.2f}"` after the separator swap). -/
def chunk3 : List Char → List (List Char)
  | [] => []
  | [a] => [[a]]
  | [a, b] => [[a, b]]
  | a :: b :: c :: rest => [a, b, c] :: chunk3 rest

/-- `ars(value)` of `agent_logic.py` on an integer value:
`f"${value:,.2f}"` with `,`/`.` swapped. -/
def arsNum (n : Int) : String :=
  let rdigits := (toString n.natAbs).toList.reverse
  let grouped := List.intercalate ['.'] ((chunk3 rdigits).reverse.map List.reverse)
  "$" ++ (if n < 0 then "-" else "") ++ String.mk grouped ++ ",00"

/-- `ars(value)`: `None` renders as `"$0,00"`. -/
def ars : Option Int → String
  | none => "$0,00"
  | some n => arsNum n

/-- `re.fullmatch(r"\s*(20\d{2})\s*", msg)`, returning the year. -/
def fullmatchYear (s : String) : Option Nat :=
  match s.toList.dropWhile isSpaceC with
  | '2' :: '0' :: a :: b :: rest =>
    if isDigitC a && isDigitC b && rest.all isSpaceC then
      some (2000 + 10 * digitVal a + digitVal b)
    else none
  | _ => none

/-- Step 2 of `handle_agent`: the `YYYY-MM` fast path, else
`parse_periodo_es`; returns `(periodo, periodo_error, pending_month)`. -/
def resolvePeriodoMsg (now : PDate) (msg : String) :
    Option String × Option String × Option Nat :=
  match findYYYYMM msg with
  | some p => (some p, none, none)
  | none =>
    let r := parse_periodo_es now msg
    ( (if truthyS r.1 then r.1 else none),
      (if truthyS r.1 then none else if truthyS r.2.1 then r.2.1 else none),
      r.2.2 )

/-- Step 5 of `handle_agent`: bare-year continuation against a
`pending_month` held in the session context.  Returns the (possibly
combined) period, the (possibly adopted) intent, and the context with the
pending pair cleared when the step fires. -/
def bareYearStep (ctx : Ctx) (msg : String) (periodo : Option String) (intent : String) :
    Option String × String × Ctx :=
  match fullmatchYear msg with
  | some y =>
    if !truthyS periodo && truthyN ctx.pending_month then
      let p := _to_periodo (Int.ofNat y) (Int.ofNat (ctx.pending_month.getD 0))
      let intent2 :=
        if intent = "unknown" && truthyS ctx.pending_intent then ctx.pending_intent.getD ""
        else intent
      (some p, intent2, { ctx with pending_month := none, pending_intent := none })
    else (periodo, intent, ctx)
  | none => (periodo, intent, ctx)

/-- The four period-bound intents of step 11. -/
def needsPeriodo (intent : String) : Bool :=
  intent = "iva_resumen_periodo" || intent = "ventas_resumen_periodo" ||
  intent = "compras_resumen_periodo" || intent = "resultado_periodo"

/-- The intent-specific period prompt of step 11 (default, then the four
overrides). -/
def preguntaFor (intent : String) : String :=
  if intent = "iva_resumen_periodo" then "¿De qué período querés el IVA? (YYYY-MM, ej: 2025-12)"
  else if intent = "ventas_resumen_periodo" then
    "¿De qué período querés las ventas? (YYYY-MM, ej: 2025-12)"
  else if intent = "compras_resumen_periodo" then
    "¿De qué período querés las compras? (YYYY-MM, ej: 2025-12)"
  else if intent = "resultado_periodo" then
    "¿De qué período querés el resultado? (YYYY-MM, ej: 2025-12)"
  else "¿De qué período? (YYYY-MM, ej: 2025-12)"

/-- Step 12 of `handle_agent`, one definition per intent block of the
source, plus the final `unknown` fallback reply. -/
def dispatchVencimientos (db : DB) (msgL : String) (intent : String)
    (idCliente : Option Nat) (ctx : Ctx) (trace : List AQuery) : HAResult :=
  let modo := if containsSub "este mes" msgL || containsSub "en el mes" msgL then
    "mes_actual" else "proximos"
  let v := (db.vencimientos idCliente modo).take 10
  let vencidos30 := db.vencidosRecientes idCliente
  let trace2 := trace ++ [.getVencimientos idCliente modo, .countVencidos idCliente]
  if v = [] then
    let reply0 := if modo = "proximos" then "No tenés vencimientos pendientes próximos 🎉"
      else "No tenés vencimientos pendientes para este mes 🎉"
    let reply := if vencidos30 > 0 then
      reply0 ++ "\n⚠️ Además tenés " ++ toString vencidos30 ++ " vencido(s) en los últimos 30 días."
      else reply0
    ⟨.ok ⟨intent, reply, [], some (.vencimientos [])⟩, ctx, trace2⟩
  else
    let titulo := if modo = "proximos" then "Estos son tus próximos vencimientos:\n"
      else "Estos son tus vencimientos de este mes:\n"
    let lines := v.map (fun x => "- " ++ x.impuesto ++ " " ++ x.periodo ++ " → " ++ x.fecha_vto)
    let reply1 := titulo ++ String.intercalate "\n" lines
    let reply := if vencidos30 > 0 then
      reply1 ++ "\n\n⚠️ Tenés " ++ toString vencidos30 ++ " vencido(s) en los últimos 30 días."
      else reply1
    ⟨.ok ⟨intent, reply, [], some (.vencimientos v)⟩, ctx, trace2⟩

def dispatchIva (db : DB) (intent : String) (periodo : Option String)
    (idCliente : Option Nat) (ctx : Ctx) (trace : List AQuery) : HAResult :=
  let trace2 := trace ++ [.getIva idCliente periodo]
  match db.iva idCliente periodo with
  | none =>
    ⟨.ok ⟨intent, "No encuentro resumen de IVA para el período " ++ pyStrOptStr periodo ++ ".",
      [], none⟩, ctx, trace2⟩
  | some iva =>
    let reply :=
      "IVA " ++ pyStrOptStr periodo ++ " (" ++ pyStrOptStr iva.razon_social ++ "): " ++
      pyStrOptStr iva.resultado ++ ".\n" ++
      "• Débito: " ++ pyStrOptInt iva.iva_debito ++ "\n" ++
      "• Crédito: " ++ pyStrOptInt iva.iva_credito ++ "\n" ++
      "• Percepciones: " ++ pyStrOptInt iva.perc_iva ++ "\n" ++
      "• Retenciones: " ++ pyStrOptInt iva.ret_iva ++ "\n" ++
      "• Saldo: " ++ pyStrOptInt iva.saldo_iva_calculado
    ⟨.ok ⟨intent, reply, [], some (.iva iva)⟩, ctx, trace2⟩

def dispatchVentas (db : DB) (intent : String) (periodo : Option String)
    (idCliente : Option Nat) (ctx : Ctx) (trace : List AQuery) : HAResult :=
  let trace2 := trace ++ [.getVentas idCliente periodo]
  match db.ventas idCliente periodo with
  | none =>
    ⟨.ok ⟨intent, "No encuentro ventas para el período " ++ pyStrOptStr periodo ++ ".",
      [], none⟩, ctx, trace2⟩
  | some ventas =>
    let reply :=
      "Ventas " ++ pyStrOptStr periodo ++ " (" ++ pyStrOptStr ventas.razon_social ++ "):\n" ++
      "• Neto: " ++ ars ventas.ventas_neto ++ "\n" ++
      "• IVA: " ++ ars ventas.ventas_iva ++ "\n" ++
      "• Total: " ++ ars ventas.ventas_total
    ⟨.ok ⟨intent, reply, [], some (.ventas ventas)⟩, ctx, trace2⟩

def dispatchCompras (db : DB) (intent : String) (periodo : Option String)
    (idCliente : Option Nat) (ctx : Ctx) (trace : List AQuery) : HAResult :=
  let trace2 := trace ++ [.getCompras idCliente periodo]
  match db.compras idCliente periodo with
  | none =>
    ⟨.ok ⟨intent, "No encuentro resumen de compras para el período " ++ pyStrOptStr periodo ++ ".",
      [], none⟩, ctx, trace2⟩
  | some compras =>
    let reply :=
      "Compras " ++ pyStrOptStr periodo ++ " (" ++ pyStrOptStr compras.razon_social ++ "):\n" ++
      "• Neto: " ++ ars compras.compras_neto ++ "\n" ++
      "• IVA: " ++ ars compras.compras_iva ++ "\n" ++
      "• Total: " ++ ars compras.compras_total
    ⟨.ok ⟨intent, reply, [], some (.compras compras)⟩, ctx, trace2⟩

def dispatchResultado (db : DB) (intent : String) (periodo : Option String)
    (idCliente : Option Nat) (ctx : Ctx) (trace : List AQuery) : HAResult :=
  let trace2 := trace ++ [.getResultado idCliente periodo]
  match db.resultado idCliente periodo with
  | none =>
    ⟨.ok ⟨intent, "No encuentro resultado para el período " ++ pyStrOptStr periodo ++ ".",
      [], none⟩, ctx, trace2⟩
  | some res =>
    let ventasTotal : Int := pyOrIZ (pyOrI (pyOrI res.ventas_total res.total_ventas) res.ventas)
    let comprasTotal : Int :=
      pyOrIZ (pyOrI (pyOrI res.compras_total res.total_compras) res.compras)
    let resultado : Int :=
      match pyOrI res.resultado res.resultado_total with
      | some r => r
      | none => ventasTotal - comprasTotal
    -- `(resultado or 0) >= 0`: for an integer, `resultado or 0` is `resultado`
    let estado := if 0 ≤ resultado then "GANANCIA" else "PÉRDIDA"
    let reply :=
      "Resultado " ++ pyStrOptStr periodo ++ " (" ++ pyStrOptStr res.razon_social ++ "): " ++
      estado ++ "\n" ++
      "• Ventas: " ++ ars (some ventasTotal) ++ "\n" ++
      "• Compras: " ++ ars (some comprasTotal) ++ "\n" ++
      "• Resultado: " ++ ars (some resultado)
    ⟨.ok ⟨intent, reply, [], some (.resultado res)⟩, ctx, trace2⟩

def dispatchSituacion (db : DB) (intent : String)
    (idCliente : Option Nat) (ctx : Ctx) (trace : List AQuery) : HAResult :=
  let impuestos := db.situacionFiscal idCliente
  let trace2 := trace ++ [.getSituacion idCliente]
  if impuestos = [] then
    ⟨.ok ⟨intent,
      "No tengo impuestos asignados a tu cliente todavía. Decime cuáles corresponde cargar (ej: Monotributo + IIBB) y lo registramos.",
      [], some (.impuestos [])⟩, ctx, trace2⟩
  else
    let lines := impuestos.map (fun x =>
      if truthyS x.periodicidad then
        "- " ++ x.impuesto ++ " (" ++ x.periodicidad.getD "" ++ ")"
      else "- " ++ x.impuesto)
    ⟨.ok ⟨intent, "Tu situación fiscal (impuestos asociados):\n" ++ String.intercalate "\n" lines,
      [], some (.impuestos impuestos)⟩, ctx, trace2⟩

def dispatchDocumentos (db : DB) (intent : String)
    (idCliente : Option Nat) (ctx : Ctx) (trace : List AQuery) : HAResult :=
  let docs := (db.documentos idCliente).take 10
  let trace2 := trace ++ [.getDocumentos idCliente]
  if docs = [] then
    ⟨.ok ⟨intent, "No tengo documentos cargados para tu cliente todavía.",
      [], some (.documentos [])⟩, ctx, trace2⟩
  else
    let lines := docs.map (fun d =>
      let tipo := (pyOrS d.tipo (some "documento")).getD ""
      let titulo := (pyOrS d.titulo (some "Documento")).getD ""
      let fecha := pyOrS d.fecha_documento d.created_at
      let extraTxt := if truthyS fecha then " (" ++ fecha.getD "" ++ ")" else ""
      if truthyS d.url_archivo then
        "- [" ++ tipo ++ "] [" ++ titulo ++ "](" ++ d.url_archivo.getD "" ++ ")" ++ extraTxt
      else "- [" ++ tipo ++ "] " ++ titulo ++ extraTxt)
    ⟨.ok ⟨intent, "Documentos disponibles:\n" ++ String.intercalate "\n" lines,
      [], some (.documentos docs)⟩, ctx, trace2⟩

def dispatchIntent (db : DB) (msgL : String) (intent : String) (periodo : Option String)
    (idCliente : Option Nat) (ctx : Ctx) (trace : List AQuery) : HAResult :=
  if intent = "vencimientos_proximos" then
    dispatchVencimientos db msgL intent idCliente ctx trace
  else if intent = "iva_resumen_periodo" then
    dispatchIva db intent periodo idCliente ctx trace
  else if intent = "ventas_resumen_periodo" then
    dispatchVentas db intent periodo idCliente ctx trace
  else if intent = "compras_resumen_periodo" then
    dispatchCompras db intent periodo idCliente ctx trace
  else if intent = "resultado_periodo" then
    dispatchResultado db intent periodo idCliente ctx trace
  else if intent = "situacion_fiscal" then
    dispatchSituacion db intent idCliente ctx trace
  else if intent = "documentos" then
    dispatchDocumentos db intent idCliente ctx trace
  else
    ⟨.ok ⟨"unknown",
      "No entendí la consulta. Podés pedir: vencimientos, IVA (con período), ventas, compras, resultado, situación fiscal o documentos.",
      [], none⟩, ctx, trace⟩

/-- Steps 9–11 of `handle_agent`: the identify confirmation, the
identification request, and the missing-period clarification (with the
pending pair stored); otherwise dispatch. -/
def agentRespond (db : DB) (msgL : String) (intent : String) (periodo : Option String)
    (periodoError : Option String) (pendingMonth : Option Nat)
    (idCliente : Option Nat) (ctx : Ctx) (trace : List AQuery) : HAResult :=
  if intent = "identify" then
    ⟨.ok ⟨"identify",
      "Perfecto ✅ Ya te identifiqué. Ahora decime qué necesitás: IVA (con período), ventas, compras, resultado, vencimientos, situación fiscal o documentos.",
      [], if truthyN idCliente then some (.idCliente (idCliente.getD 0)) else none⟩, ctx, trace⟩
  else if !(truthyN idCliente || truthyS ctx.cliente_ref) then
    ⟨.ok ⟨intent,
      "Necesito tu CUIT o email para identificarte. Ej: \x27cuit 30-12345678-9\x27 o \x27email nombre@dominio.com\x27.",
      ["cliente_ref"], none⟩, ctx, trace⟩
  else if needsPeriodo intent && !truthyS periodo then
    let ctx2 := if truthyN pendingMonth then
      { ctx with pending_month := pendingMonth, pending_intent := some intent } else ctx
    if truthyS periodoError then
      ⟨.ok ⟨intent, periodoError.getD "", ["periodo"], none⟩, ctx2, trace⟩
    else
      ⟨.ok ⟨intent, preguntaFor intent, ["periodo"], none⟩, ctx2, trace⟩
  else dispatchIntent db msgL intent periodo idCliente ctx trace

/-- Steps 1–5 of `handle_agent` combined: the period and intent resolved
for this turn (after the bare-year continuation) and the context with the
pending pair cleared when that continuation fired. -/
def agentStage1 (now : PDate) (ctx0 : Ctx) (message : String) : Option String × String × Ctx :=
  let msg := pyStrip message
  let msgL := pyStrip (pyLower msg)
  bareYearStep ctx0 msg (resolvePeriodoMsg now msg).1 (_detect_intent_rules msgL)

/-- `handle_agent(db, req)`, with `datetime.now()` explicit and the
session context passed in and returned (the caller owns
`SESSION_CTX[req.session_id]`, created empty when absent or not a dict). -/
def handle_agent (db : DB) (now : PDate) (ctx0 : Ctx) (message : String) : HAResult :=
  let msg := pyStrip message
  let msgL := pyStrip (pyLower msg)
  let clienteRef := _extract_cliente_ref msgL
  let rp := resolvePeriodoMsg now msg
  let step5 := agentStage1 now ctx0 message
  let periodo1 := step5.1
  let intent1 := step5.2.1
  let ctx1 := step5.2.2
  let intent2 :=
    if truthyS clienteRef && intent1 = "unknown" && !truthyS periodo1 then "identify" else intent1
  let ctx2 := if truthyS clienteRef then { ctx1 with cliente_ref := clienteRef } else ctx1
  let idCliente0 := ctx2.id_cliente
  let ref := pyOrS clienteRef ctx2.cliente_ref
  if !truthyN idCliente0 && truthyS ref then
    match ensure_cliente db (ref.getD "") with
    | .error e => ⟨.error e, ctx2, [.ensureCliente (ref.getD "")]⟩
    | .ok idc =>
      agentRespond db msgL intent2 periodo1 rp.2.1 rp.2.2 (some idc)
        { ctx2 with id_cliente := some idc } [.ensureCliente (ref.getD "")]
  else
    agentRespond db msgL intent2 periodo1 rp.2.1 rp.2.2 idCliente0 ctx2 []

/-! ## WhatsApp identity/OTP gateway (`app/services/wa_gateway.py`)

Timestamps are abstract `Int` instants measured in minutes
(`timedelta(days=d)` is `d * 1440`, `timedelta(minutes=m)` is `m`);
`datetime.utcnow()` is `env.now`.  `_hash_otp` (salted SHA-256) is an
abstract function `env.hash`; `secrets.randbelow`-generated codes are the
oracle `env.freshCode`. -/

/-- A row of the `usuarios_cliente` whitelist table as selected by
`_find_user_by_phone` (`activo` defaults to 1 via `r.get("activo", 1)`). -/
structure UserRow where
  id_usuario : Nat
  id_cliente : Nat
  rol : Option String := none
  activo : Int := 1
  deriving DecidableEq, Repr

/-- Result of `_find_user_by_phone`: `None`, `{"ambiguous": True}`, or the
matched row. -/
inductive UserLookup where
  | noUser
  | ambiguous
  | found (u : UserRow)
  deriving DecidableEq, Repr

/-- A row of `whatsapp_identity`.  `status` of a freshly inserted row is
the table default, which the repository does not ship; we model it as
`""` (nothing in the gateway ever reads it back). -/
structure Identity where
  wa_id : String
  id_usuario : Nat
  id_cliente : Nat
  verified_at : Option Int := none
  status : String := ""
  last_seen_at : Option Int := none
  deriving DecidableEq, Repr

/-- A row of `whatsapp_otp` (`attempts` defaults to 0 on insert). -/
structure OtpRow where
  id : Nat
  wa_id : String
  code_hash : String
  expires_at : Int
  attempts : Nat := 0
  used_at : Option Int := none
  deriving DecidableEq, Repr

/-- The mutable storage the gateway touches.  `otps` is kept most recently
inserted first, so that its head per `wa_id` is the `ORDER BY id DESC
LIMIT 1` row. -/
structure WAState where
  messageLog : List (String × String) := []
  identities : List Identity := []
  otps : List OtpRow := []
  nextOtpId : Nat := 0
  deriving DecidableEq, Repr

/-- Read-only environment of the gateway. -/
structure WAEnv where
  usuariosByTel : String → List UserRow
  hash : String → String
  reverifyDays : Int := 30
  otpTtlMinutes : Int := 10
  now : Int
  freshCode : String

def _digits_only (s : String) : String := digitsOnly s

/-- `_dedupe_message`: the `INSERT` into `whatsapp_message_log` is keyed by
the upstream message id; a duplicate insert raises and is rolled back,
returning `False`. -/
def _dedupe_message (s : WAState) (mid waId : String) : Bool × WAState :=
  if mid = "" then (true, s)
  else if s.messageLog.any (fun e => e.1 = mid) then (false, s)
  else (true, { s with messageLog := s.messageLog ++ [(mid, waId)] })

/-- `_find_user_by_phone`: looks up the digits-only address and the
`+`-prefixed variant (Python iterates the two-element set
`{digits, "+" + digits}`, whose order is unspecified; we fix digits
first — the claims proved below are insensitive to this order).  Exactly
one row resolves it (inactive rows resolve to no user); two or more rows
(the `LIMIT 2` cap) are ambiguous; zero rows try the next variant. -/
def _find_user_by_phone (env : WAEnv) (waId : String) : UserLookup :=
  let check : String → Option UserLookup := fun v =>
    match (env.usuariosByTel v).take 2 with
    | [r] => some (if r.activo ≠ 1 then .noUser else .found r)
    | [] => none
    | _ => some .ambiguous
  match check waId with
  | some r => r
  | none =>
    match check ("+" ++ waId) with
    | some r => r
    | none => .noUser

def _get_identity (s : WAState) (waId : String) : Option Identity :=
  s.identities.find? (fun i => i.wa_id = waId)

/-- `_upsert_identity`: `INSERT ... ON DUPLICATE KEY UPDATE` keyed on
`wa_id`; an update refreshes the link, `last_seen_at` and `status` but
keeps `verified_at`. -/
def _upsert_identity (s : WAState) (waId : String) (iu ic : Nat) (now : Int) : WAState :=
  if s.identities.any (fun i => i.wa_id = waId) then
    { s with identities := s.identities.map (fun i =>
        if i.wa_id = waId then
          { i with id_usuario := iu, id_cliente := ic, last_seen_at := some now,
                   status := "active" }
        else i) }
  else
    { s with identities := s.identities ++
        [{ wa_id := waId, id_usuario := iu, id_cliente := ic, verified_at := none,
           status := "", last_seen_at := some now }] }

def _mark_verified (s : WAState) (waId : String) (now : Int) : WAState :=
  { s with identities := s.identities.map (fun i =>
      if i.wa_id = waId then
        { i with verified_at := some now, last_seen_at := some now, status := "active" }
      else i) }

/-- `_needs_reverify` (the `isinstance(verified, str)` branch is vacuous
here because timestamps are typed). -/
def _needs_reverify (env : WAEnv) (identity : Option Identity) : Bool :=
  match identity with
  | none => true
  | some i =>
    match i.verified_at with
    | none => true
    | some v => v < env.now - env.reverifyDays * 1440

/-- The `ORDER BY id DESC LIMIT 1` row of `whatsapp_otp` for an address. -/
def latestOtp (s : WAState) (waId : String) : Option OtpRow :=
  s.otps.find? (fun r => r.wa_id = waId)

/-- `_create_otp`. -/
def _create_otp (env : WAEnv) (s : WAState) (waId : String) : String × WAState :=
  let code := env.freshCode
  let row : OtpRow :=
    { id := s.nextOtpId, wa_id := waId, code_hash := env.hash code,
      expires_at := env.now + env.otpTtlMinutes, attempts := 0, used_at := none }
  (code, { s with otps := row :: s.otps, nextOtpId := s.nextOtpId + 1 })

/-- `_verify_otp`: reads the most recently issued row only; rejects used,
capped (5 attempts) and expired rows untouched; otherwise increments the
attempt counter and, on a hash match, also stamps `used_at` (the source
runs these as two `UPDATE`s on the same row before one commit). -/
def _verify_otp (env : WAEnv) (s : WAState) (waId code : String) : Bool × WAState :=
  match latestOtp s waId with
  | none => (false, s)
  | some row =>
    if row.used_at.isSome then (false, s)
    else if row.attempts ≥ 5 then (false, s)
    else if row.expires_at < env.now then (false, s)
    else
      let ok := row.code_hash == env.hash code
      let s2 := { s with otps := s.otps.map (fun r =>
        if r.id = row.id then
          { r with attempts := r.attempts + 1,
                   used_at := if ok then some env.now else r.used_at }
        else r) }
      (ok, s2)

/-- `OTP_RE = ^\s*(\d{6})\s*$` applied with `.match` (anchored both ends). -/
def otpMatch (text : String) : Option String :=
  let cs := text.toList.dropWhile isSpaceC
  let run := cs.take 6
  if run.length = 6 && run.all isDigitC && (cs.drop 6).all isSpaceC then
    some (String.mk run)
  else none

/-- The process-wide `SESSION_CTX` map. -/
abbrev Sessions := List (String × Ctx)

def sessionsGet (ss : Sessions) (k : String) : Option Ctx :=
  (ss.find? (fun e => e.1 = k)).map (fun e => e.2)

def sessionsSet (ss : Sessions) (k : String) (c : Ctx) : Sessions :=
  if ss.any (fun e => e.1 = k) then ss.map (fun e => if e.1 = k then (k, c) else e)
  else ss ++ [(k, c)]

/-- The externally visible actions of one `handle_whatsapp` call, in
order. -/
inductive WaEvent where
  | dedupe (mid : String)
  | whitelist (wa : String)
  | upsertIdentity (wa : String)
  | verifyOtp (wa : String) (code : String)
  | createOtp (wa : String)
  | markVerified (wa : String)
  | agentCall (sessionId : String) (message : String)
  deriving DecidableEq, Repr

/-- Result of one `handle_whatsapp` call. -/
structure WhResult where
  reply : Except String String
  state : WAState
  sessions : Sessions
  events : List WaEvent
  deriving DecidableEq, Repr

/-- `handle_whatsapp(db, from_number, text_msg, message_id)`. -/
def handle_whatsapp (env : WAEnv) (db : DB) (agentNow : PDate) (s : WAState)
    (sessions : Sessions) (fromNumber textMsg : String)
    (messageId : Option String) : WhResult :=
  let waId := _digits_only fromNumber
  let mid := messageId.getD ""
  -- 0) dedupe
  let s1 := if truthyS messageId then (_dedupe_message s mid waId).2 else s
  let ev0 := if truthyS messageId then [WaEvent.dedupe mid] else []
  if truthyS messageId && !(_dedupe_message s mid waId).1 then
    ⟨.ok "✅ Recibido.", s1, sessions, ev0⟩
  else
  -- 1) whitelist
  match _find_user_by_phone env waId with
  | .noUser =>
    ⟨.ok "❌ Tu número no está autorizado para este servicio. Contactá al administrador.",
      s1, sessions, ev0 ++ [.whitelist waId]⟩
  | .ambiguous =>
    ⟨.ok "⚠️ Tu número aparece en más de un cliente. Contactá al administrador para corregirlo.",
      s1, sessions, ev0 ++ [.whitelist waId]⟩
  | .found u =>
    -- 2) upsert identity
    let s2 := _upsert_identity s1 waId u.id_usuario u.id_cliente env.now
    let identity := _get_identity s2 waId
    -- 3) OTP gate
    if _needs_reverify env identity then
      match otpMatch textMsg with
      | some code =>
        let vr := _verify_otp env s2 waId code
        if vr.1 then
          ⟨.ok "✅ Código verificado. Ahora podés hacer tu consulta (ej: *ventas 2025-12*).",
            _mark_verified vr.2 waId env.now, sessions,
            ev0 ++ [.whitelist waId, .upsertIdentity waId, .verifyOtp waId code,
              .markVerified waId]⟩
        else
          ⟨.ok "❌ Código incorrecto o vencido. Pedí uno nuevo escribiendo: OTP",
            vr.2, sessions,
            ev0 ++ [.whitelist waId, .upsertIdentity waId, .verifyOtp waId code]⟩
      | none =>
        let cr := _create_otp env s2 waId
        ⟨.ok ("🔐 Para continuar, te envié un código de verificación: *" ++ cr.1 ++
            "*.\nRespondé con ese código (6 dígitos)."),
          cr.2, sessions, ev0 ++ [.whitelist waId, .upsertIdentity waId, .createOtp waId]⟩
    else
      -- 4)–5) authenticated: bind the customer into the WA session and run the agent
      let sessionId := "wa:" ++ waId
      let ctx0 := (sessionsGet sessions sessionId).getD {}
      let ctx1 := { ctx0 with id_cliente := some u.id_cliente }
      let ar := handle_agent db agentNow ctx1 textMsg
      ⟨ar.res.map (fun r => r.reply), s2, sessionsSet sessions sessionId ar.ctx,
        ev0 ++ [.whitelist waId, .upsertIdentity waId, .agentCall sessionId textMsg]⟩

/-! ## Derived notions used in the statements below -/

/-- The storage query that step 12 of `handle_agent` runs for a
period-bound intent. -/
def periodQuery (intent : String) (idc : Option Nat) (periodo : Option String) : AQuery :=
  if intent = "iva_resumen_periodo" then .getIva idc periodo
  else if intent = "ventas_resumen_periodo" then .getVentas idc periodo
  else if intent = "compras_resumen_periodo" then .getCompras idc periodo
  else .getResultado idc periodo

/-- The session pending-pair invariant of the spec: `pendingMonth` and
`pendingIntent` are present together or absent together. -/
def pairInv (c : Ctx) : Prop := c.pending_month.isSome = c.pending_intent.isSome

/-- The session context left behind by a sequence of `handle_agent` calls
for one session, starting from the lazily created empty context. -/
def runAgentSeq (inputs : List (DB × PDate × String)) : Ctx :=
  inputs.foldl (fun c inp => (handle_agent inp.1 inp.2.1 c inp.2.2).ctx) {}

/-- A trivial storage instance, used to instantiate universally quantified
statements at concrete inputs. -/
def dbTriv : DB :=
  { emailCliente := fun _ => none, cuitCliente := fun _ => none, freshId := 42,
    vencimientos := fun _ _ => [], vencidosRecientes := fun _ => 0,
    iva := fun _ _ => none, ventas := fun _ _ => none, compras := fun _ _ => none,
    resultado := fun _ _ => none, situacionFiscal := fun _ => [], documentos := fun _ => [] }

/-- A small whitelist/OTP environment, used to instantiate universally
quantified statements at concrete inputs. -/
def envTriv : WAEnv :=
  { usuariosByTel := fun t => if t = "5491111" then [{ id_usuario := 1, id_cliente := 7 }] else [],
    hash := fun c => "h:" ++ c, now := 100000, freshCode := "123456" }

/-- A whitelist environment in which two active records share the one
phone number `+5491111`, used to instantiate ambiguity statements. -/
def envAmb : WAEnv :=
  { usuariosByTel := fun t =>
      if t = "+5491111" then
        [{ id_usuario := 1, id_cliente := 7 }, { id_usuario := 2, id_cliente := 8 }]
      else [],
    hash := fun c => "h:" ++ c, now := 100000, freshCode := "123456" }

/-- A live (unconsumed, uncapped, unexpired under `envTriv`) OTP row and
states around it, used to instantiate the OTP statements. -/
def otpLive : OtpRow :=
  { id := 3, wa_id := "5491111", code_hash := "h:123456", expires_at := 100005 }

def stateLive : WAState := { otps := [otpLive], nextOtpId := 4 }

def stateUsed : WAState := { otps := [{ otpLive with used_at := some 99990 }], nextOtpId := 4 }

def stateCapped : WAState := { otps := [{ otpLive with attempts := 5 }], nextOtpId := 4 }

def stateExpired : WAState := { otps := [{ otpLive with expires_at := 99990 }], nextOtpId := 4 }

/-! ## Theorems -/

theorem add_months_next (y m : Int) (h1 : 1 ≤ m) (h2 : m ≤ 12) :
    _add_months y m 1 = (if m = 12 then (y + 1, 1) else (y, m + 1)) := by
  show ((y * 12 + (m - 1) + 1).fdiv 12, (y * 12 + (m - 1) + 1).fmod 12 + 1) = _
  rw [Int.fdiv_eq_ediv _ (by decide), Int.fmod_eq_emod _ (by decide)]
  split <;> (simp only [Prod.mk.injEq]; constructor <;> omega)

theorem add_months_prev (y m : Int) (h1 : 1 ≤ m) (h2 : m ≤ 12) :
    _add_months y m (-1) = (if m = 1 then (y - 1, 12) else (y, m - 1)) := by
  show ((y * 12 + (m - 1) + -1).fdiv 12, (y * 12 + (m - 1) + -1).fmod 12 + 1) = _
  rw [Int.fdiv_eq_ediv _ (by decide), Int.fmod_eq_emod _ (by decide)]
  split <;> (simp only [Prod.mk.injEq]; constructor <;> omega)

theorem parse_mes_pasado (now : PDate) :
    parse_periodo_es now "mes pasado" =
      (some (_to_periodo (_add_months now.year now.month (-1)).1
        (_add_months now.year now.month (-1)).2), none, none) := rfl

theorem parse_mes_que_viene (now : PDate) :
    parse_periodo_es now "mes que viene" =
      (some (_to_periodo (_add_months now.year now.month 1).1
        (_add_months now.year now.month 1).2), none, none) := rfl

/-- Claim C7: month arithmetic wraps year boundaries: parsing
`"mes pasado"` in January of year `y` yields the period `{y-1}-12`,
parsing `"mes que viene"` in December yields `{y+1}-01`, and for every
year `y` and month `m` in `1..12`, `_add_months y m (±1)` is the calendar
successor/predecessor of `(y, m)`, with a month component again in
`1..12`. -/
theorem claim_C7_month_wraparound :
    (∀ y : Int, parse_periodo_es ⟨y, 1⟩ "mes pasado" =
      (some (_to_periodo (y - 1) 12), none, none))
    ∧ (∀ y : Int, parse_periodo_es ⟨y, 12⟩ "mes que viene" =
      (some (_to_periodo (y + 1) 1), none, none))
    ∧ (∀ y m : Int, 1 ≤ m → m ≤ 12 →
        _add_months y m 1 = (if m = 12 then (y + 1, 1) else (y, m + 1))
        ∧ _add_months y m (-1) = (if m = 1 then (y - 1, 12) else (y, m - 1))
        ∧ (1 ≤ (_add_months y m 1).2 ∧ (_add_months y m 1).2 ≤ 12)
        ∧ (1 ≤ (_add_months y m (-1)).2 ∧ (_add_months y m (-1)).2 ≤ 12)) := by
  refine ⟨fun y => ?_, fun y => ?_, fun y m h1 h2 => ?_⟩
  · rw [parse_mes_pasado ⟨y, 1⟩, add_months_prev y 1 (by decide) (by decide)]
    norm_num
  · rw [parse_mes_que_viene ⟨y, 12⟩, add_months_next y 12 (by decide) (by decide)]
    norm_num
  · refine ⟨add_months_next y m h1 h2, add_months_prev y m h1 h2, ?_, ?_⟩
    · rw [add_months_next y m h1 h2]
      split <;> constructor <;> omega
    · rw [add_months_prev y m h1 h2]
      split <;> constructor <;> omega

theorem claim_C7_month_wraparound_witness :
    parse_periodo_es ⟨2026, 1⟩ "mes pasado" = (some "2025-12", none, none)
    ∧ parse_periodo_es ⟨2026, 12⟩ "mes que viene" = (some "2027-01", none, none)
    ∧ _add_months 2026 6 1 = (2026, 7) ∧ _add_months 2026 1 (-1) = (2025, 12) := by
  refine ⟨?_, ?_, ?_, ?_⟩
  · exact claim_C7_month_wraparound.1 2026
  · exact claim_C7_month_wraparound.2.1 2026
  · exact (claim_C7_month_wraparound.2.2 2026 6 (by decide) (by decide)).1
  · exact (claim_C7_month_wraparound.2.2 2026 1 (by decide) (by decide)).2.1

theorem detect_eq_spec (msgL : String) : _detect_intent_rules msgL = classifySpec msgL := by
  unfold _detect_intent_rules classifySpec specCategories
  simp only [List.any_cons, List.any_nil, Bool.or_false, Bool.or_assoc, List.find?]
  cases h1 : (containsSub "situacion fiscal" msgL ||
      (containsSub "monotrib" msgL || containsSub "responsable" msgL)) <;>
    simp only [h1] <;> [skip; rfl]
  cases h2 : (containsSub "vence" msgL ||
      (containsSub "vencim" msgL || containsSub "pendiente" msgL)) <;>
    simp only [h2] <;> [skip; rfl]
  cases h3 : (containsSub "ventas" msgL || (containsSub "venta" msgL ||
      (containsSub "facturacion" msgL ||
        (containsSub "facturación" msgL || containsSub "ingresos" msgL)))) <;>
    simp only [h3] <;> [skip; rfl]
  cases h4 : (containsSub "compras" msgL ||
      (containsSub "compra" msgL || containsSub "gastos" msgL)) <;>
    simp only [h4] <;> [skip; rfl]
  cases h5 : (containsSub "resultado" msgL || (containsSub "gané" msgL ||
      (containsSub "gane" msgL || (containsSub "perdí" msgL ||
        (containsSub "perdi" msgL || containsSub "balance" msgL))))) <;>
    simp only [h5] <;> [skip; rfl]
  cases h6 : (containsSub "iva" msgL) <;> simp only [h6] <;> [skip; rfl]
  cases h7 : (containsSub "document" msgL ||
      (containsSub "constancia" msgL || containsSub "ddjj" msgL)) <;>
    simp only [h7] <;> [skip; rfl]
  rfl

theorem detect_ne_identify (msgL : String) : _detect_intent_rules msgL ≠ "identify" := by
  unfold _detect_intent_rules
  split_ifs <;> simp

theorem detect_situacion_first (msgL : String)
    (h : containsSub "situacion fiscal" msgL = true) :
    _detect_intent_rules msgL = "situacion_fiscal" := by
  unfold _detect_intent_rules
  simp [h]

/-- Claim C8: the rule classifier agrees, on every input, with the
spec-side classifier that walks the keyword categories in the documented
fixed order and returns the first match (hence `unknown` exactly when no
category matches); a text containing `"situacion fiscal"` classifies as
`situacion_fiscal` even if it also contains `"iva"`; and no input
classifies as `identify`. -/
theorem claim_C8_classifier_priority :
    ∀ msgL : String,
      _detect_intent_rules msgL = classifySpec msgL
      ∧ _detect_intent_rules msgL ≠ "identify"
      ∧ (containsSub "situacion fiscal" msgL = true →
          _detect_intent_rules msgL = "situacion_fiscal") :=
  fun msgL =>
    ⟨detect_eq_spec msgL, detect_ne_identify msgL, detect_situacion_first msgL⟩

theorem claim_C8_classifier_priority_witness :
    _detect_intent_rules "necesito la situacion fiscal y el iva" = "situacion_fiscal"
    ∧ _detect_intent_rules "hola" ≠ "identify" :=
  ⟨(claim_C8_classifier_priority "necesito la situacion fiscal y el iva").2.2 rfl,
   (claim_C8_classifier_priority "hola").2.1⟩

theorem monthAt_mem {cs : List Char} {m : String} {rest : List Char}
    (h : monthAt cs = some (m, rest)) : m ∈ monthExpansions := by
  obtain ⟨e, hmem, hfe⟩ := List.exists_of_findSome?_eq_some h
  split at hfe
  · cases hfe
    exact hmem
  · cases hfe

theorem scanMonth_mem {m : String} :
    ∀ (prev : Bool) (cs : List Char), scanMonth prev cs = some m → m ∈ monthExpansions
  | _, [] => fun h => Option.noConfusion h
  | prev, c :: rest => by
    intro h
    rw [scanMonth] at h
    cases prev with
    | true =>
      exact scanMonth_mem (isWordC c) rest h
    | false =>
      cases hma : monthAt (c :: rest) with
      | none =>
        rw [hma] at h
        exact scanMonth_mem (isWordC c) rest h
      | some p =>
        obtain ⟨m2, r2⟩ := p
        rw [hma] at h
        have h2 : some m2 = some m := h
        cases h2
        exact monthAt_mem hma

theorem mesOf_bounds : ∀ e ∈ monthExpansions,
    (mesOf e).isSome = true ∧ 1 ≤ (mesOf e).getD 0 ∧ (mesOf e).getD 0 ≤ 12 := by decide

theorem listContains_of_prefix {n l : List Char} (h : listPrefix n l = true) :
    listContains n l = true := by
  cases l with
  | nil => exact h
  | cons c rest => simp [listContains, h]

theorem listPrefix_self_append (n b : List Char) : listPrefix n (n ++ b) = true := by
  induction n with
  | nil => rfl
  | cons a t ih => simp [listPrefix, ih]

theorem listContains_append_middle (n a b : List Char) :
    listContains n (a ++ n ++ b) = true := by
  induction a with
  | nil => exact listContains_of_prefix (listPrefix_self_append n b)
  | cons c t ih =>
    rw [List.cons_append, List.cons_append, listContains, ih, Bool.or_true]

theorem toList_append (a b : String) : (a ++ b).toList = a.toList ++ b.toList := by
  cases a; cases b; rfl

theorem containsSub_middle (n p q : String) : containsSub n (p ++ n ++ q) = true := by
  unfold containsSub
  rw [toList_append, toList_append]
  exact listContains_append_middle _ _ _

/-- Claim C6 as stated is refuted at a concrete input: with the current
date 2026-10, the bare month name `"diciembre"` yields the clarification
`"¿De qué año es diciembre? Ej: 2025-12"`, whose example period is built
from the literal year 2025, not from the current year — the string does
not contain the current-year example `2026-12` (`_to_periodo 2026 12`). -/
theorem claim_C6_counterexample :
    parse_periodo_es ⟨2026, 10⟩ "diciembre" =
      (none, some "¿De qué año es diciembre? Ej: 2025-12", some 12)
    ∧ containsSub (_to_periodo 2026 12) "¿De qué año es diciembre? Ej: 2025-12" = false :=
  ⟨rfl, rfl⟩

/-- Claim C6 (amended): for every input text in which the month-name
scanner finds a recognized Spanish month name (full or stem), with no
literal `YYYY-MM` and no month-plus-year form, `parse_periodo_es` returns
no period, `pendingMonth` equal to that month's number (in `1..12`), and a
clarification question that contains the month name and embeds an example
period built from the literal year 2025 (not the current year) and that
month's two-digit number. -/
theorem claim_C6_bare_month_amended (now : PDate) (texto mesTxt : String)
    (h1 : findYYYYMM texto = none)
    (h2 : findMonthYear (pyStrip (pyLower texto)).toList = none)
    (h3 : findMonth (pyStrip (pyLower texto)).toList = some mesTxt) :
    ∃ m : Nat, mesOf mesTxt = some m ∧ 1 ≤ m ∧ m ≤ 12 ∧
      parse_periodo_es now texto =
        (none, some ("¿De qué año es " ++ mesTxt ++ "? Ej: 2025-" ++ pad2Int (Int.ofNat m)),
          some m)
      ∧ containsSub mesTxt ("¿De qué año es " ++ mesTxt ++ "? Ej: 2025-" ++
          pad2Int (Int.ofNat m)) = true := by
  have hmem : mesTxt ∈ monthExpansions := scanMonth_mem false _ h3
  obtain ⟨hsome, hlo, hhi⟩ := mesOf_bounds mesTxt hmem
  obtain ⟨m, hm⟩ := Option.isSome_iff_exists.mp hsome
  rw [hm] at hlo hhi
  simp only [Option.getD_some] at hlo hhi
  refine ⟨m, hm, hlo, hhi, ?_, ?_⟩
  · simp only [parse_periodo_es, h1, h2, h3, hm]
    rfl
  · have h := containsSub_middle mesTxt "¿De qué año es "
      ("? Ej: 2025-" ++ pad2Int (Int.ofNat m))
    calc containsSub mesTxt ("¿De qué año es " ++ mesTxt ++ "? Ej: 2025-" ++
          pad2Int (Int.ofNat m))
        = containsSub mesTxt ("¿De qué año es " ++ mesTxt ++
            ("? Ej: 2025-" ++ pad2Int (Int.ofNat m))) := by
          rw [String.append_assoc]
      _ = true := h

theorem bareYearStep_fields (ctx : Ctx) (msg : String) (p : Option String) (i : String) :
    (bareYearStep ctx msg p i).2.2.id_cliente = ctx.id_cliente
    ∧ (bareYearStep ctx msg p i).2.2.cliente_ref = ctx.cliente_ref := by
  unfold bareYearStep
  split <;> [split <;> simp; simp]

theorem agentStage1_fields (now : PDate) (ctx0 : Ctx) (message : String) :
    (agentStage1 now ctx0 message).2.2.id_cliente = ctx0.id_cliente
    ∧ (agentStage1 now ctx0 message).2.2.cliente_ref = ctx0.cliente_ref := by
  unfold agentStage1
  exact bareYearStep_fields ctx0 (pyStrip message) _ _

/-- Claim C10 (implicit): when the session holds no resolved customer id
and the message's extracted customer reference is neither a syntactically
valid email nor a string containing exactly 11 digits, `handle_agent`
raises `ValueError "CUIT inválido"` from `ensure_cliente` instead of
returning an `AgentResponse` — the turn ends in a server-side failure. -/
theorem claim_C10_invalid_ref_raises (db : DB) (now : PDate) (ctx0 : Ctx) (message r : String)
    (hid : truthyN ctx0.id_cliente = false)
    (hext : _extract_cliente_ref (pyStrip (pyLower (pyStrip message))) = some r)
    (hr : r ≠ "")
    (hnz : pyLower (pyStrip r) ≠ "")
    (hemail : _is_email (pyLower (pyStrip r)) = false)
    (hdig : (digitsOnly (pyLower (pyStrip r))).length ≠ 11) :
    (handle_agent db now ctx0 message).res = Except.error "CUIT inválido" := by
  have hcr : truthyS (some r) = true := by simp [truthyS, hr]
  have hstage := agentStage1_fields now ctx0 message
  have hens : ensure_cliente db r = Except.error "CUIT inválido" := by
    unfold ensure_cliente
    rw [if_neg hnz, hemail]
    simp only [Bool.false_eq_true, if_false]
    rw [if_pos hdig]
  unfold handle_agent
  simp only [hext, hcr, if_true, pyOrS, hstage.1, hstage.2, hid, Option.getD_some]
  simp only [Bool.not_false, Bool.true_and, hens]
  simp

theorem claim_C10_invalid_ref_raises_witness :
    (handle_agent dbTriv ⟨2026, 10⟩ {} "cuit abc").res = Except.error "CUIT inválido" :=
  claim_C10_invalid_ref_raises dbTriv ⟨2026, 10⟩ {} "cuit abc" "abc" rfl rfl
    (by decide) (by decide) rfl (by decide)

/-- Claim C3: for every inbound relay message whose upstream message id
was already recorded in the message log, `handle_whatsapp` returns the
acknowledgement reply and performs no further processing: the state and
sessions are returned unchanged and the only action taken is the dedupe
check — no whitelist lookup, identity upsert, OTP handling or
dialogue-engine call. -/
theorem claim_C3_dedupe_idempotent (env : WAEnv) (db : DB) (agentNow : PDate)
    (s : WAState) (sessions : Sessions) (fromNumber textMsg mid : String)
    (hmid : mid ≠ "")
    (hdup : s.messageLog.any (fun e => e.1 = mid) = true) :
    handle_whatsapp env db agentNow s sessions fromNumber textMsg (some mid)
      = ⟨.ok "✅ Recibido.", s, sessions, [.dedupe mid]⟩ := by
  have hts : truthyS (some mid) = true := by simp [truthyS, hmid]
  unfold handle_whatsapp _dedupe_message
  simp [hts, hmid, hdup]

theorem claim_C3_dedupe_idempotent_witness :
    handle_whatsapp envTriv dbTriv ⟨2026, 10⟩ { messageLog := [("m1", "5491111")] } []
        "5491111" "ventas 2025-12" (some "m1")
      = ⟨.ok "✅ Recibido.", { messageLog := [("m1", "5491111")] }, [], [.dedupe "m1"]⟩ :=
  claim_C3_dedupe_idempotent envTriv dbTriv ⟨2026, 10⟩
    { messageLog := [("m1", "5491111")] } [] "5491111" "ventas 2025-12" "m1"
    (by decide) (by decide)

theorem find_user_ambiguous (env : WAEnv) (waId : String)
    (h1 : ((env.usuariosByTel waId).take 2).length ≠ 1)
    (h2 : ((env.usuariosByTel ("+" ++ waId)).take 2).length ≠ 1)
    (h3 : 1 < ((env.usuariosByTel waId).take 2).length
        ∨ 1 < ((env.usuariosByTel ("+" ++ waId)).take 2).length) :
    _find_user_by_phone env waId = .ambiguous := by
  unfold _find_user_by_phone
  rcases hl1 : (env.usuariosByTel waId).take 2 with _ | ⟨a, _ | ⟨b, t⟩⟩ <;>
    rcases hl2 : (env.usuariosByTel ("+" ++ waId)).take 2 with _ | ⟨c, _ | ⟨d, t2⟩⟩ <;>
    simp_all

/-- Claim C9: when the normalized sender address matches more than one
whitelist row (under either stored variant of the number, with no variant
matching exactly one row — e.g. two active records sharing one phone),
`handle_whatsapp` returns the ambiguity reply and never resolves to a
candidate: identities, OTP rows and sessions are untouched and no
identity upsert, OTP action or dialogue-engine call happens (the only
events are the dedupe check, when an id is present, and the whitelist
lookup).  The hypotheses are insensitive to the unspecified iteration
order of the Python two-element set of variants. -/
theorem claim_C9_ambiguous_terminal (env : WAEnv) (db : DB) (agentNow : PDate)
    (s : WAState) (sessions : Sessions) (fromNumber textMsg : String)
    (messageId : Option String)
    (hfresh : ∀ mid, messageId = some mid →
      mid = "" ∨ s.messageLog.any (fun e => e.1 = mid) = false)
    (h1 : ((env.usuariosByTel (_digits_only fromNumber)).take 2).length ≠ 1)
    (h2 : ((env.usuariosByTel ("+" ++ _digits_only fromNumber)).take 2).length ≠ 1)
    (h3 : 1 < ((env.usuariosByTel (_digits_only fromNumber)).take 2).length
        ∨ 1 < ((env.usuariosByTel ("+" ++ _digits_only fromNumber)).take 2).length) :
    (handle_whatsapp env db agentNow s sessions fromNumber textMsg messageId).reply
      = .ok "⚠️ Tu número aparece en más de un cliente. Contactá al administrador para corregirlo."
    ∧ (handle_whatsapp env db agentNow s sessions fromNumber textMsg messageId).state.identities
      = s.identities
    ∧ (handle_whatsapp env db agentNow s sessions fromNumber textMsg messageId).state.otps
      = s.otps
    ∧ (handle_whatsapp env db agentNow s sessions fromNumber textMsg messageId).sessions
      = sessions
    ∧ (handle_whatsapp env db agentNow s sessions fromNumber textMsg messageId).events
      = (if truthyS messageId then [WaEvent.dedupe (messageId.getD "")] else [])
        ++ [WaEvent.whitelist (_digits_only fromNumber)] := by
  have hamb := find_user_ambiguous env (_digits_only fromNumber) h1 h2 h3
  unfold handle_whatsapp
  cases messageId with
  | none => simp [truthyS, hamb]
  | some mid =>
    rcases hfresh mid rfl with hm | hany
    · subst hm
      simp [truthyS, _dedupe_message, hamb]
    · by_cases hm : mid = ""
      · subst hm
        simp [truthyS, _dedupe_message, hamb]
      · have hts2 : truthyS (some mid) = true := by simp [truthyS, hm]
        simp [hts2, _dedupe_message, hm, hany, hamb]

theorem claim_C9_ambiguous_terminal_witness :
    (handle_whatsapp envAmb dbTriv ⟨2026, 10⟩ {} [] "5491111" "hola" none).reply
      = .ok "⚠️ Tu número aparece en más de un cliente. Contactá al administrador para corregirlo."
    ∧ (handle_whatsapp envAmb dbTriv ⟨2026, 10⟩ {} [] "5491111" "hola" none).events
      = [WaEvent.whitelist "5491111"] := by
  have h := claim_C9_ambiguous_terminal envAmb dbTriv ⟨2026, 10⟩ {} [] "5491111" "hola" none
    (fun mid hm => by cases hm) (by decide) (by decide) (by decide)
  refine ⟨h.1, ?_⟩
  rw [h.2.2.2.2]
  rfl


theorem otps_find_update (wa : String) (idv : Nat) (upd : OtpRow → OtpRow)
    (hupd : ∀ r, (upd r).wa_id = r.wa_id) :
    ∀ (l : List OtpRow) (row : OtpRow), l.find? (fun r => r.wa_id = wa) = some row →
      row.id = idv →
      (l.map (fun r => if r.id = idv then upd r else r)).find? (fun r => r.wa_id = wa)
        = some (upd row) := by
  intro l
  induction l with
  | nil => intro row h hid; simp [List.find?] at h
  | cons b t ih =>
    intro row h hid
    by_cases hb : b.wa_id = wa
    · rw [List.find?_cons_of_pos _ (by simp [hb])] at h
      injection h with h
      subst h
      subst hid
      simp only [List.map, if_pos rfl]
      exact List.find?_cons_of_pos _ (by simp [hupd, hb])
    · rw [List.find?_cons_of_neg _ (by simp [hb])] at h
      simp only [List.map]
      by_cases hbid : b.id = idv
      · rw [if_pos hbid, List.find?_cons_of_neg _ (by simp [hupd, hb])]
        exact ih row h hid
      · rw [if_neg hbid, List.find?_cons_of_neg _ (by simp [hb])]
        exact ih row h hid

theorem latestOtp_after_update (s : WAState) (wa : String) (row : OtpRow)
    (upd : OtpRow → OtpRow) (hupd : ∀ r, (upd r).wa_id = r.wa_id)
    (h : latestOtp s wa = some row) :
    latestOtp { s with otps := s.otps.map (fun r => if r.id = row.id then upd r else r) } wa
      = some (upd row) := by
  unfold latestOtp at h ⊢
  show (s.otps.map (fun r => if r.id = row.id then upd r else r)).find?
    (fun r => r.wa_id = wa) = some (upd row)
  exact otps_find_update wa row.id upd hupd s.otps row h rfl


theorem verify_otp_no_row (env : WAEnv) (s : WAState) (wa code : String)
    (h : latestOtp s wa = none) : _verify_otp env s wa code = (false, s) := by
  unfold _verify_otp
  rw [h]

theorem verify_otp_used (env : WAEnv) (s : WAState) (wa code : String) (row : OtpRow)
    (h : latestOtp s wa = some row) (hu : row.used_at.isSome = true) :
    _verify_otp env s wa code = (false, s) := by
  unfold _verify_otp
  rw [h]
  simp [hu]

theorem verify_otp_capped (env : WAEnv) (s : WAState) (wa code : String) (row : OtpRow)
    (h : latestOtp s wa = some row) (hu : row.used_at = none) (hc : 5 ≤ row.attempts) :
    _verify_otp env s wa code = (false, s) := by
  unfold _verify_otp
  rw [h]
  simp [hu, hc]

theorem verify_otp_expired (env : WAEnv) (s : WAState) (wa code : String) (row : OtpRow)
    (h : latestOtp s wa = some row) (hu : row.used_at = none) (hc : row.attempts < 5)
    (hexp : row.expires_at < env.now) :
    _verify_otp env s wa code = (false, s) := by
  unfold _verify_otp
  rw [h]
  have hc2 : ¬ (row.attempts ≥ 5) := by omega
  simp [hu, hc2, hexp]

theorem verify_otp_wrong (env : WAEnv) (s : WAState) (wa code : String) (row : OtpRow)
    (h : latestOtp s wa = some row) (hu : row.used_at = none) (hc : row.attempts < 5)
    (hexp : env.now ≤ row.expires_at) (hhash : env.hash code ≠ row.code_hash) :
    _verify_otp env s wa code =
      (false, { s with otps := s.otps.map (fun r =>
        if r.id = row.id then { r with attempts := r.attempts + 1 } else r) }) := by
  unfold _verify_otp
  rw [h]
  have hc2 : ¬ (row.attempts ≥ 5) := by omega
  have hexp2 : ¬ (row.expires_at < env.now) := by omega
  have hok : (row.code_hash == env.hash code) = false := by
    cases hbe : row.code_hash == env.hash code with
    | false => rfl
    | true => exact absurd (eq_of_beq hbe).symm hhash
  simp [hu, hc2, hexp2, hok]

theorem verify_otp_right (env : WAEnv) (s : WAState) (wa code : String) (row : OtpRow)
    (h : latestOtp s wa = some row) (hu : row.used_at = none) (hc : row.attempts < 5)
    (hexp : env.now ≤ row.expires_at) (hhash : env.hash code = row.code_hash) :
    _verify_otp env s wa code =
      (true, { s with otps := s.otps.map (fun r =>
        if r.id = row.id then
          { r with attempts := r.attempts + 1, used_at := some env.now } else r) }) := by
  unfold _verify_otp
  rw [h]
  have hc2 : ¬ (row.attempts ≥ 5) := by omega
  have hexp2 : ¬ (row.expires_at < env.now) := by omega
  have hok : (row.code_hash == env.hash code) = true := by
    rw [hhash]
    exact beq_self_eq_true _
  simp [hu, hc2, hexp2, hok]

theorem verify_otp_reuse (env env2 : WAEnv) (s : WAState) (wa code code2 : String) (row : OtpRow)
    (h : latestOtp s wa = some row) (hu : row.used_at = none) (hc : row.attempts < 5)
    (hexp : env.now ≤ row.expires_at) (hhash : env.hash code = row.code_hash) :
    _verify_otp env2 (_verify_otp env s wa code).2 wa code2
      = (false, (_verify_otp env s wa code).2) := by
  rw [verify_otp_right env s wa code row h hu hc hexp hhash]
  exact verify_otp_used env2 _ wa code2
    { row with attempts := row.attempts + 1, used_at := some env.now }
    (latestOtp_after_update s wa row _ (fun r => rfl) h) rfl


theorem identities_find_mark (wa : String) (now : Int) :
    ∀ (l : List Identity) (i : Identity), l.find? (fun x => x.wa_id = wa) = some i →
      (l.map (fun x => if x.wa_id = wa then
          { x with verified_at := some now, last_seen_at := some now, status := "active" }
        else x)).find? (fun x => x.wa_id = wa)
        = some { i with verified_at := some now, last_seen_at := some now,
                        status := "active" } := by
  intro l
  induction l with
  | nil => intro i h; simp [List.find?] at h
  | cons b t ih =>
    intro i h
    by_cases hb : b.wa_id = wa
    · rw [List.find?_cons_of_pos _ (by simp [hb])] at h
      injection h with h
      subst h
      simp only [List.map, if_pos hb]
      exact List.find?_cons_of_pos _ (by simp [hb])
    · rw [List.find?_cons_of_neg _ (by simp [hb])] at h
      simp only [List.map, if_neg hb]
      rw [List.find?_cons_of_neg _ (by simp [hb])]
      exact ih i h

theorem find?_append_none {α : Type} (p : α → Bool) :
    ∀ (l l2 : List α), l.find? p = none → (l ++ l2).find? p = l2.find? p := by
  intro l l2
  induction l with
  | nil => intro h; rfl
  | cons b t ih =>
    intro h
    cases hb : p b with
    | true => rw [List.find?_cons_of_pos _ hb] at h; cases h
    | false =>
      rw [List.find?_cons_of_neg _ (by simp [hb])] at h
      rw [List.cons_append, List.find?_cons_of_neg _ (by simp [hb])]
      exact ih h

theorem upsert_otps (s : WAState) (wa : String) (iu ic : Nat) (now : Int) :
    (_upsert_identity s wa iu ic now).otps = s.otps := by
  unfold _upsert_identity
  split <;> rfl

theorem upsert_messageLog (s : WAState) (wa : String) (iu ic : Nat) (now : Int) :
    (_upsert_identity s wa iu ic now).messageLog = s.messageLog := by
  unfold _upsert_identity
  split <;> rfl

theorem identities_find_upsert (wa : String) (iu ic : Nat) (now : Int) :
    ∀ l : List Identity, l.any (fun x => x.wa_id = wa) = true →
      ∃ j, (l.map (fun x => if x.wa_id = wa then
          { x with id_usuario := iu, id_cliente := ic, last_seen_at := some now,
                   status := "active" }
        else x)).find? (fun x => x.wa_id = wa) = some j := by
  intro l
  induction l with
  | nil => intro h; simp at h
  | cons b t ih =>
    intro h
    by_cases hb : b.wa_id = wa
    · refine Exists.intro
        ({ b with
            id_usuario := iu,
            id_cliente := ic,
            last_seen_at := some now,
            status := "active" } : Identity) ?_
      simp only [List.map, if_pos hb]
      exact List.find?_cons_of_pos _ (by simp [hb])
    · have h2 : t.any (fun x => x.wa_id = wa) = true := by
        simpa [List.any_cons, hb] using h
      obtain ⟨j, hj⟩ := ih h2
      refine ⟨j, ?_⟩
      simp only [List.map, if_neg hb]
      rw [List.find?_cons_of_neg _ (by simp [hb])]
      exact hj

theorem get_identity_upsert_isSome (s : WAState) (wa : String) (iu ic : Nat) (now : Int) :
    ∃ j, _get_identity (_upsert_identity s wa iu ic now) wa = some j := by
  unfold _upsert_identity
  by_cases hany : s.identities.any (fun i => i.wa_id = wa) = true
  · rw [if_pos hany]
    exact identities_find_upsert wa iu ic now s.identities hany
  · rw [if_neg hany]
    refine Exists.intro
        ({ wa_id := wa,
           id_usuario := iu,
           id_cliente := ic,
           verified_at := none,
           status := "",
           last_seen_at := some now } : Identity) ?_
    show (s.identities ++
        [({ wa_id := wa,
            id_usuario := iu,
            id_cliente := ic,
            verified_at := none,
            status := "",
            last_seen_at := some now } : Identity)]).find?
          (fun i => i.wa_id = wa) = _
    rw [find?_append_none]
    · exact List.find?_cons_of_pos _ (by simp)
    · rw [List.find?_eq_none]
      intro x hx hpx
      exact hany (List.any_eq_true.mpr ⟨x, hx, hpx⟩)


theorem verify_otp_identities (env : WAEnv) (s : WAState) (wa code : String) :
    ((_verify_otp env s wa code).2).identities = s.identities := by
  unfold _verify_otp
  cases latestOtp s wa with
  | none => rfl
  | some row =>
    dsimp only
    split_ifs <;> rfl

theorem get_identity_mark (s : WAState) (wa : String) (now : Int) (i : Identity)
    (h : _get_identity s wa = some i) :
    _get_identity (_mark_verified s wa now) wa
      = some { i with verified_at := some now, last_seen_at := some now,
                      status := "active" } := by
  unfold _get_identity at h ⊢
  unfold _mark_verified
  exact identities_find_mark wa now s.identities i h

theorem wa_verified_marks (env : WAEnv) (db : DB) (agentNow : PDate) (s : WAState)
    (sessions : Sessions) (fromNumber textMsg code : String) (u : UserRow) (row : OtpRow)
    (hfind : _find_user_by_phone env (_digits_only fromNumber) = .found u)
    (hneeds : _needs_reverify env (_get_identity
        (_upsert_identity s (_digits_only fromNumber) u.id_usuario u.id_cliente env.now)
        (_digits_only fromNumber)) = true)
    (hotp : otpMatch textMsg = some code)
    (hrow : latestOtp s (_digits_only fromNumber) = some row)
    (hu : row.used_at = none) (hc : row.attempts < 5) (hexp : env.now ≤ row.expires_at)
    (hhash : env.hash code = row.code_hash) :
    (handle_whatsapp env db agentNow s sessions fromNumber textMsg none).reply
      = .ok "✅ Código verificado. Ahora podés hacer tu consulta (ej: *ventas 2025-12*)."
    ∧ ((_get_identity (handle_whatsapp env db agentNow s sessions fromNumber textMsg none).state
        (_digits_only fromNumber)).map (fun i => i.verified_at)) = some (some env.now) := by
  have hlat : latestOtp (_upsert_identity s (_digits_only fromNumber) u.id_usuario
      u.id_cliente env.now) (_digits_only fromNumber) = some row := by
    unfold latestOtp
    rw [upsert_otps]
    exact hrow
  have hvr := verify_otp_right env
    (_upsert_identity s (_digits_only fromNumber) u.id_usuario u.id_cliente env.now)
    (_digits_only fromNumber) code row hlat hu hc hexp hhash
  obtain ⟨j, hj⟩ := get_identity_upsert_isSome s (_digits_only fromNumber)
    u.id_usuario u.id_cliente env.now
  have hw : handle_whatsapp env db agentNow s sessions fromNumber textMsg none
      = ⟨Except.ok "✅ Código verificado. Ahora podés hacer tu consulta (ej: *ventas 2025-12*).",
         _mark_verified ((_verify_otp env (_upsert_identity s (_digits_only fromNumber)
             u.id_usuario u.id_cliente env.now) (_digits_only fromNumber) code).2)
           (_digits_only fromNumber) env.now,
         sessions,
         [WaEvent.whitelist (_digits_only fromNumber),
          WaEvent.upsertIdentity (_digits_only fromNumber),
          WaEvent.verifyOtp (_digits_only fromNumber) code,
          WaEvent.markVerified (_digits_only fromNumber)]⟩ := by
    unfold handle_whatsapp
    simp only [truthyS, hfind, hneeds, hotp]
    simp [hvr, hneeds]
  rw [hw]
  refine ⟨rfl, ?_⟩
  have hj3 : _get_identity ((_verify_otp env (_upsert_identity s (_digits_only fromNumber)
      u.id_usuario u.id_cliente env.now) (_digits_only fromNumber) code).2)
      (_digits_only fromNumber) = some j := by
    unfold _get_identity
    rw [verify_otp_identities]
    exact hj
  show (Option.map (fun i => i.verified_at) (_get_identity (_mark_verified
      ((_verify_otp env (_upsert_identity s (_digits_only fromNumber) u.id_usuario
        u.id_cliente env.now) (_digits_only fromNumber) code).2)
      (_digits_only fromNumber) env.now) (_digits_only fromNumber))) = some (some env.now)
  rw [get_identity_mark _ _ _ _ hj3]
  rfl

/-- Claim C2: OTP validation.  A verification attempt is checked only
against the most recently issued code row for the address: it is rejected
with the state untouched when there is no row, when that row is already
consumed, has reached the 5-attempt cap, or is expired; a non-matching
attempt against a live row increments only the attempt counter (leaving
the consumed timestamp unset); a matching attempt increments the counter
and sets the consumed timestamp; any subsequent attempt after a success
fails with the state unchanged; and through `handle_whatsapp` a matching
attempt also marks the channel identity verified. -/
theorem claim_C2_otp_validation :
    (∀ (env : WAEnv) (s : WAState) (wa code : String),
      latestOtp s wa = none → _verify_otp env s wa code = (false, s))
    ∧ (∀ (env : WAEnv) (s : WAState) (wa code : String) (row : OtpRow),
      latestOtp s wa = some row → row.used_at.isSome = true →
      _verify_otp env s wa code = (false, s))
    ∧ (∀ (env : WAEnv) (s : WAState) (wa code : String) (row : OtpRow),
      latestOtp s wa = some row → row.used_at = none → 5 ≤ row.attempts →
      _verify_otp env s wa code = (false, s))
    ∧ (∀ (env : WAEnv) (s : WAState) (wa code : String) (row : OtpRow),
      latestOtp s wa = some row → row.used_at = none → row.attempts < 5 →
      row.expires_at < env.now → _verify_otp env s wa code = (false, s))
    ∧ (∀ (env : WAEnv) (s : WAState) (wa code : String) (row : OtpRow),
      latestOtp s wa = some row → row.used_at = none → row.attempts < 5 →
      env.now ≤ row.expires_at → env.hash code ≠ row.code_hash →
      _verify_otp env s wa code = (false, { s with otps := s.otps.map (fun r =>
        if r.id = row.id then { r with attempts := r.attempts + 1 } else r) }))
    ∧ (∀ (env : WAEnv) (s : WAState) (wa code : String) (row : OtpRow),
      latestOtp s wa = some row → row.used_at = none → row.attempts < 5 →
      env.now ≤ row.expires_at → env.hash code = row.code_hash →
      _verify_otp env s wa code = (true, { s with otps := s.otps.map (fun r =>
        if r.id = row.id then
          { r with attempts := r.attempts + 1, used_at := some env.now } else r) }))
    ∧ (∀ (env env2 : WAEnv) (s : WAState) (wa code code2 : String) (row : OtpRow),
      latestOtp s wa = some row → row.used_at = none → row.attempts < 5 →
      env.now ≤ row.expires_at → env.hash code = row.code_hash →
      _verify_otp env2 (_verify_otp env s wa code).2 wa code2
        = (false, (_verify_otp env s wa code).2))
    ∧ (∀ (env : WAEnv) (db : DB) (agentNow : PDate) (s : WAState) (sessions : Sessions)
        (fromNumber textMsg code : String) (u : UserRow) (row : OtpRow),
      _find_user_by_phone env (_digits_only fromNumber) = .found u →
      _needs_reverify env (_get_identity
        (_upsert_identity s (_digits_only fromNumber) u.id_usuario u.id_cliente env.now)
        (_digits_only fromNumber)) = true →
      otpMatch textMsg = some code →
      latestOtp s (_digits_only fromNumber) = some row →
      row.used_at = none → row.attempts < 5 → env.now ≤ row.expires_at →
      env.hash code = row.code_hash →
      (handle_whatsapp env db agentNow s sessions fromNumber textMsg none).reply
        = .ok "✅ Código verificado. Ahora podés hacer tu consulta (ej: *ventas 2025-12*)."
      ∧ ((_get_identity (handle_whatsapp env db agentNow s sessions fromNumber
          textMsg none).state (_digits_only fromNumber)).map (fun i => i.verified_at))
        = some (some env.now)) :=
  ⟨verify_otp_no_row, verify_otp_used, verify_otp_capped, verify_otp_expired,
   verify_otp_wrong, verify_otp_right, verify_otp_reuse,
   fun env db agentNow s sessions fromNumber textMsg code u row h1 h2 h3 h4 h5 h6 h7 h8 =>
     wa_verified_marks env db agentNow s sessions fromNumber textMsg code u row
       h1 h2 h3 h4 h5 h6 h7 h8⟩

theorem claim_C2_otp_validation_witness :
    _verify_otp envTriv {} "5491111" "123456" = (false, {})
    ∧ _verify_otp envTriv stateUsed "5491111" "123456" = (false, stateUsed)
    ∧ _verify_otp envTriv stateCapped "5491111" "123456" = (false, stateCapped)
    ∧ _verify_otp envTriv stateExpired "5491111" "123456" = (false, stateExpired)
    ∧ _verify_otp envTriv stateLive "5491111" "999999"
      = (false, { stateLive with otps := stateLive.otps.map (fun r =>
          if r.id = otpLive.id then { r with attempts := r.attempts + 1 } else r) })
    ∧ _verify_otp envTriv stateLive "5491111" "123456"
      = (true, { stateLive with otps := stateLive.otps.map (fun r =>
          if r.id = otpLive.id then
            { r with attempts := r.attempts + 1, used_at := some envTriv.now } else r) })
    ∧ _verify_otp envTriv (_verify_otp envTriv stateLive "5491111" "123456").2
        "5491111" "123456"
      = (false, (_verify_otp envTriv stateLive "5491111" "123456").2)
    ∧ (handle_whatsapp envTriv dbTriv ⟨2026, 10⟩ stateLive [] "5491111" "123456" none).reply
      = .ok "✅ Código verificado. Ahora podés hacer tu consulta (ej: *ventas 2025-12*)."
    ∧ ((_get_identity (handle_whatsapp envTriv dbTriv ⟨2026, 10⟩ stateLive [] "5491111"
        "123456" none).state "5491111").map (fun i => i.verified_at))
      = some (some envTriv.now) := by
  have hwa := claim_C2_otp_validation.2.2.2.2.2.2.2 envTriv dbTriv ⟨2026, 10⟩ stateLive []
    "5491111" "123456" "123456" { id_usuario := 1, id_cliente := 7 } otpLive
    rfl rfl rfl rfl rfl (by decide) (by decide) rfl
  refine ⟨claim_C2_otp_validation.1 envTriv {} "5491111" "123456" rfl,
    claim_C2_otp_validation.2.1 envTriv stateUsed "5491111" "123456"
      { otpLive with used_at := some 99990 } rfl rfl,
    claim_C2_otp_validation.2.2.1 envTriv stateCapped "5491111" "123456"
      { otpLive with attempts := 5 } rfl rfl (by decide),
    claim_C2_otp_validation.2.2.2.1 envTriv stateExpired "5491111" "123456"
      { otpLive with expires_at := 99990 } rfl rfl (by decide) (by decide),
    claim_C2_otp_validation.2.2.2.2.1 envTriv stateLive "5491111" "999999" otpLive
      rfl rfl (by decide) (by decide) (by decide),
    claim_C2_otp_validation.2.2.2.2.2.1 envTriv stateLive "5491111" "123456" otpLive
      rfl rfl (by decide) (by decide) rfl,
    claim_C2_otp_validation.2.2.2.2.2.2.1 envTriv envTriv stateLive "5491111" "123456"
      "123456" otpLive rfl rfl (by decide) (by decide) rfl,
    hwa.1, hwa.2⟩

theorem claim_C6_bare_month_amended_witness :
    ∃ m : Nat, mesOf "diciembre" = some m ∧ 1 ≤ m ∧ m ≤ 12 ∧
      parse_periodo_es ⟨2026, 10⟩ "diciembre" =
        (none, some ("¿De qué año es " ++ "diciembre" ++ "? Ej: 2025-" ++
          pad2Int (Int.ofNat m)), some m)
      ∧ containsSub "diciembre" ("¿De qué año es " ++ "diciembre" ++ "? Ej: 2025-" ++
          pad2Int (Int.ofNat m)) = true :=
  claim_C6_bare_month_amended ⟨2026, 10⟩ "diciembre" "diciembre" rfl rfl rfl

end Contabot
namespace Contabot

theorem agentRespond_missing_period (db : DB) (msgL intent : String)
    (periodo perror : Option String) (pm : Option Nat) (idc : Option Nat) (ctx : Ctx)
    (trace : List AQuery)
    (hneeds : needsPeriodo intent = true)
    (hident : intent ≠ "identify")
    (hidc : truthyN idc = true)
    (hper : truthyS periodo = false) :
    agentRespond db msgL intent periodo perror pm idc ctx trace
      = if truthyS perror = true then
          ⟨.ok ⟨intent, perror.getD "", ["periodo"], none⟩,
           if truthyN pm = true then
             { ctx with pending_month := pm, pending_intent := some intent } else ctx,
           trace⟩
        else
          ⟨.ok ⟨intent, preguntaFor intent, ["periodo"], none⟩,
           if truthyN pm = true then
             { ctx with pending_month := pm, pending_intent := some intent } else ctx,
           trace⟩ := by
  unfold agentRespond
  rw [if_neg hident]
  simp only [hidc, hneeds, hper, Bool.true_or, Bool.not_true, Bool.not_false,
    Bool.true_and, Bool.false_eq_true, if_false, if_true]

/-- Claim C4: for a resolved period-bound intent with a resolved customer
and no resolved period, `handle_agent` replies with the parser's
clarification when one was produced and otherwise the intent-specific
prompt, reports `missing = ["periodo"]`, executes no storage query, and,
when the parser produced a `pendingMonth` this turn, stores it together
with the current intent in the session context. -/
theorem claim_C4_missing_period (db : DB) (now : PDate) (ctx0 : Ctx)
    (message i : String) (cid : Nat)
    (hcid : ctx0.id_cliente = some cid) (hcid0 : cid ≠ 0)
    (hi : (agentStage1 now ctx0 message).2.1 = i)
    (hneeds : needsPeriodo i = true)
    (hper : (agentStage1 now ctx0 message).1 = none) :
    (handle_agent db now ctx0 message).res
      = (if truthyS (resolvePeriodoMsg now (pyStrip message)).2.1 = true
         then .ok ⟨i, ((resolvePeriodoMsg now (pyStrip message)).2.1).getD "",
           ["periodo"], none⟩
         else .ok ⟨i, preguntaFor i, ["periodo"], none⟩)
    ∧ (handle_agent db now ctx0 message).trace = []
    ∧ (truthyN (resolvePeriodoMsg now (pyStrip message)).2.2 = true →
        (handle_agent db now ctx0 message).ctx.pending_month
          = (resolvePeriodoMsg now (pyStrip message)).2.2
        ∧ (handle_agent db now ctx0 message).ctx.pending_intent = some i) := by
  have hiu : i ≠ "unknown" ∧ i ≠ "identify" := by
    unfold needsPeriodo at hneeds
    simp only [Bool.or_eq_true, decide_eq_true_eq] at hneeds
    rcases hneeds with ((h | h) | h) | h <;> subst h <;> exact ⟨by decide, by decide⟩
  have hiub : decide (i = "unknown") = false := by simp [hiu.1]
  have hstage := agentStage1_fields now ctx0 message
  have htr : truthyN (some cid) = true := by simp [truthyN, hcid0]
  unfold handle_agent
  simp only [hi, hper, hiub, Bool.and_false, Bool.false_and, Bool.and_true,
    Bool.false_eq_true, if_false, apply_ite Ctx.id_cliente, hstage.1, hcid, ite_self,
    htr, Bool.not_true]
  rw [agentRespond_missing_period db _ i none _ _ (some cid) _ [] hneeds hiu.2 htr rfl]
  refine ⟨?_, ?_, ?_⟩
  · simp only [apply_ite HAResult.res]
  · simp only [apply_ite HAResult.trace, ite_self]
  · intro htm
    simp only [apply_ite HAResult.ctx, ite_self, htm, if_true]
    exact ⟨trivial, trivial⟩

theorem claim_C4_missing_period_witness :
    (handle_agent dbTriv ⟨2026, 10⟩ { id_cliente := some 3 } "iva diciembre").res
      = .ok ⟨"iva_resumen_periodo", "¿De qué año es diciembre? Ej: 2025-12",
          ["periodo"], none⟩
    ∧ (handle_agent dbTriv ⟨2026, 10⟩ { id_cliente := some 3 } "iva diciembre").trace = []
    ∧ (handle_agent dbTriv ⟨2026, 10⟩
        { id_cliente := some 3 } "iva diciembre").ctx.pending_month = some 12
    ∧ (handle_agent dbTriv ⟨2026, 10⟩
        { id_cliente := some 3 } "iva diciembre").ctx.pending_intent
      = some "iva_resumen_periodo" := by
  have h := claim_C4_missing_period dbTriv ⟨2026, 10⟩ { id_cliente := some 3 }
    "iva diciembre" "iva_resumen_periodo" 3 rfl (by decide) rfl rfl rfl
  refine ⟨?_, h.2.1, ?_, (h.2.2 rfl).2⟩
  · rw [h.1]
    rfl
  · exact (h.2.2 rfl).1.trans rfl

theorem to_periodo_ne_empty (y m : Int) : _to_periodo y m ≠ "" := by
  intro h
  have hl := congrArg String.length h
  rw [_to_periodo] at hl
  simp [String.length_append] at hl
  exact absurd hl.1.2 (by decide)

theorem agentRespond_dispatch (db : DB) (msgL intent : String)
    (periodo perror : Option String) (pm : Option Nat) (idc : Option Nat) (ctx : Ctx)
    (trace : List AQuery)
    (hident : intent ≠ "identify")
    (hidc : truthyN idc = true)
    (hper : truthyS periodo = true) :
    agentRespond db msgL intent periodo perror pm idc ctx trace
      = dispatchIntent db msgL intent periodo idc ctx trace := by
  unfold agentRespond
  rw [if_neg hident]
  simp [hidc, hper]

theorem dispatchIntent_period (db : DB) (msgL i : String) (periodo : Option String)
    (idc : Option Nat) (ctx : Ctx) (trace : List AQuery)
    (hi4 : needsPeriodo i = true) :
    (dispatchIntent db msgL i periodo idc ctx trace).res.map
        (fun r => (r.intent, r.missing)) = .ok (i, [])
    ∧ (dispatchIntent db msgL i periodo idc ctx trace).ctx = ctx
    ∧ (dispatchIntent db msgL i periodo idc ctx trace).trace
      = trace ++ [periodQuery i idc periodo] := by
  unfold needsPeriodo at hi4
  simp only [Bool.or_eq_true, decide_eq_true_eq] at hi4
  rcases hi4 with ((h | h) | h) | h <;> subst h
  · rcases hq : db.iva idc periodo with _ | r <;>
      exact ⟨by simp [dispatchIntent, dispatchIva, hq, Except.map],
        by simp [dispatchIntent, dispatchIva, hq],
        by simp [dispatchIntent, dispatchIva, periodQuery, hq]⟩
  · rcases hq : db.ventas idc periodo with _ | r <;>
      exact ⟨by simp [dispatchIntent, dispatchVentas, hq, Except.map],
        by simp [dispatchIntent, dispatchVentas, hq],
        by simp [dispatchIntent, dispatchVentas, periodQuery, hq]⟩
  · rcases hq : db.compras idc periodo with _ | r <;>
      exact ⟨by simp [dispatchIntent, dispatchCompras, hq, Except.map],
        by simp [dispatchIntent, dispatchCompras, hq],
        by simp [dispatchIntent, dispatchCompras, periodQuery, hq]⟩
  · rcases hq : db.resultado idc periodo with _ | r <;>
      exact ⟨by simp [dispatchIntent, dispatchResultado, hq, Except.map],
        by simp [dispatchIntent, dispatchResultado, hq],
        by simp [dispatchIntent, dispatchResultado, periodQuery, hq]⟩

end Contabot
namespace Contabot

/-- Claim C1: when the session context holds a pending month and a pending
period-bound intent, the customer is resolved, and the next message is a bare
four-digit year (no period of its own, intent classified unknown), then
`handle_agent` combines the stored month with that year into a period, clears
both pending slots, answers with the pending intent and no missing slots, and
executes exactly the storage query for that intent and period. -/
theorem claim_C1_bare_year (db : DB) (now : PDate) (ctx0 : Ctx)
    (message i : String) (m Y cid : Nat)
    (hm : ctx0.pending_month = some m) (hm0 : m ≠ 0)
    (hi : ctx0.pending_intent = some i) (hi4 : needsPeriodo i = true)
    (hper : (resolvePeriodoMsg now (pyStrip message)).1 = none)
    (hyear : fullmatchYear (pyStrip message) = some Y)
    (hunk : _detect_intent_rules (pyStrip (pyLower (pyStrip message))) = "unknown")
    (hcid : ctx0.id_cliente = some cid) (hcid0 : cid ≠ 0) :
    (handle_agent db now ctx0 message).ctx.pending_month = none
    ∧ (handle_agent db now ctx0 message).ctx.pending_intent = none
    ∧ (handle_agent db now ctx0 message).res.map (fun r => (r.intent, r.missing))
      = .ok (i, [])
    ∧ (handle_agent db now ctx0 message).trace
      = [periodQuery i (some cid) (some (_to_periodo (Int.ofNat Y) (Int.ofNat m)))] := by
  have hine : i ≠ "" ∧ i ≠ "unknown" ∧ i ≠ "identify" := by
    unfold needsPeriodo at hi4
    simp only [Bool.or_eq_true, decide_eq_true_eq] at hi4
    rcases hi4 with ((h | h) | h) | h <;> subst h <;>
      exact ⟨by decide, by decide, by decide⟩
  have hstage : agentStage1 now ctx0 message
      = (some (_to_periodo (Int.ofNat Y) (Int.ofNat m)), i,
         { ctx0 with pending_month := none, pending_intent := none }) := by
    unfold agentStage1 bareYearStep
    simp [hper, hyear, hm, hi, hunk, truthyS, truthyN, hm0, hine.1]
  have htr : truthyN (some cid) = true := by simp [truthyN, hcid0]
  have hiub : decide (i = "unknown") = false := by simp [hine.2.1]
  have hptr : truthyS (some (_to_periodo (Int.ofNat Y) (Int.ofNat m))) = true := by
    simp [truthyS, to_periodo_ne_empty]
  unfold handle_agent
  simp only [hstage, hiub, Bool.and_false, Bool.false_and, Bool.and_true,
    Bool.false_eq_true, if_false, apply_ite Ctx.id_cliente, hcid, ite_self,
    htr, Bool.not_true]
  rw [agentRespond_dispatch db _ i _ _ _ _ _ _ hine.2.2 htr hptr]
  refine ⟨?_, ?_, ?_, ?_⟩
  · rw [(dispatchIntent_period db _ i _ _ _ _ hi4).2.1]
    simp only [apply_ite Ctx.pending_month, ite_self]
  · rw [(dispatchIntent_period db _ i _ _ _ _ hi4).2.1]
    simp only [apply_ite Ctx.pending_intent, ite_self]
  · exact (dispatchIntent_period db _ i _ _ _ _ hi4).1
  · simpa using (dispatchIntent_period db _ i _ _ _ _ hi4).2.2

theorem claim_C1_bare_year_witness :
    (handle_agent dbTriv ⟨2026, 10⟩
      { id_cliente := some 7, pending_month := some 12,
        pending_intent := some "iva_resumen_periodo" } "2025").ctx.pending_month = none
    ∧ (handle_agent dbTriv ⟨2026, 10⟩
      { id_cliente := some 7, pending_month := some 12,
        pending_intent := some "iva_resumen_periodo" } "2025").ctx.pending_intent = none
    ∧ (handle_agent dbTriv ⟨2026, 10⟩
      { id_cliente := some 7, pending_month := some 12,
        pending_intent := some "iva_resumen_periodo" } "2025").res.map
        (fun r => (r.intent, r.missing)) = .ok ("iva_resumen_periodo", [])
    ∧ (handle_agent dbTriv ⟨2026, 10⟩
      { id_cliente := some 7, pending_month := some 12,
        pending_intent := some "iva_resumen_periodo" } "2025").trace
      = [AQuery.getIva (some 7) (some "2025-12")] := by
  have h := claim_C1_bare_year dbTriv ⟨2026, 10⟩
    { id_cliente := some 7, pending_month := some 12,
      pending_intent := some "iva_resumen_periodo" } "2025" "iva_resumen_periodo"
    12 2025 7 rfl (by decide) rfl rfl rfl rfl rfl rfl (by decide)
  exact ⟨h.1, h.2.1, h.2.2.1, by rw [h.2.2.2]; rfl⟩

theorem dispatchVencimientos_ctx (db : DB) (msgL intent : String)
    (idc : Option Nat) (ctx : Ctx) (trace : List AQuery) :
    (dispatchVencimientos db msgL intent idc ctx trace).ctx = ctx := by
  unfold dispatchVencimientos
  dsimp only
  split <;> split <;> rfl

theorem dispatchIva_ctx (db : DB) (intent : String) (periodo : Option String)
    (idc : Option Nat) (ctx : Ctx) (trace : List AQuery) :
    (dispatchIva db intent periodo idc ctx trace).ctx = ctx := by
  unfold dispatchIva
  rcases db.iva idc periodo with _ | r <;> rfl

theorem dispatchVentas_ctx (db : DB) (intent : String) (periodo : Option String)
    (idc : Option Nat) (ctx : Ctx) (trace : List AQuery) :
    (dispatchVentas db intent periodo idc ctx trace).ctx = ctx := by
  unfold dispatchVentas
  rcases db.ventas idc periodo with _ | r <;> rfl

theorem dispatchCompras_ctx (db : DB) (intent : String) (periodo : Option String)
    (idc : Option Nat) (ctx : Ctx) (trace : List AQuery) :
    (dispatchCompras db intent periodo idc ctx trace).ctx = ctx := by
  unfold dispatchCompras
  rcases db.compras idc periodo with _ | r <;> rfl

theorem dispatchResultado_ctx (db : DB) (intent : String) (periodo : Option String)
    (idc : Option Nat) (ctx : Ctx) (trace : List AQuery) :
    (dispatchResultado db intent periodo idc ctx trace).ctx = ctx := by
  unfold dispatchResultado
  rcases db.resultado idc periodo with _ | r <;> rfl

theorem dispatchSituacion_ctx (db : DB) (intent : String)
    (idc : Option Nat) (ctx : Ctx) (trace : List AQuery) :
    (dispatchSituacion db intent idc ctx trace).ctx = ctx := by
  unfold dispatchSituacion
  dsimp only
  split <;> rfl

theorem dispatchDocumentos_ctx (db : DB) (intent : String)
    (idc : Option Nat) (ctx : Ctx) (trace : List AQuery) :
    (dispatchDocumentos db intent idc ctx trace).ctx = ctx := by
  unfold dispatchDocumentos
  dsimp only
  split <;> rfl

theorem dispatchIntent_ctx (db : DB) (msgL intent : String) (periodo : Option String)
    (idc : Option Nat) (ctx : Ctx) (trace : List AQuery) :
    (dispatchIntent db msgL intent periodo idc ctx trace).ctx = ctx := by
  unfold dispatchIntent
  split_ifs <;>
    simp [dispatchVencimientos_ctx, dispatchIva_ctx, dispatchVentas_ctx,
      dispatchCompras_ctx, dispatchResultado_ctx, dispatchSituacion_ctx,
      dispatchDocumentos_ctx]

theorem truthyN_isSome {o : Option Nat} (h : truthyN o = true) : o.isSome = true := by
  cases o with
  | none => cases h
  | some n => rfl

theorem pairInv_set_pending (ctx : Ctx) (pm : Option Nat) (intent : String)
    (h : pairInv ctx) :
    pairInv (if truthyN pm = true then
      { ctx with pending_month := pm, pending_intent := some intent } else ctx) := by
  split
  · rename_i hpm
    show pm.isSome = (some intent).isSome
    rw [truthyN_isSome hpm]
    rfl
  · exact h

theorem agentRespond_pairInv (db : DB) (msgL intent : String)
    (periodo perror : Option String) (pm : Option Nat) (idc : Option Nat) (ctx : Ctx)
    (trace : List AQuery) (h : pairInv ctx) :
    pairInv (agentRespond db msgL intent periodo perror pm idc ctx trace).ctx := by
  unfold agentRespond
  split
  · exact h
  split
  · exact h
  split
  · dsimp only
    split <;> exact pairInv_set_pending ctx pm intent h
  · rw [dispatchIntent_ctx]
    exact h

theorem bareYearStep_pairInv (ctx : Ctx) (msg : String) (p : Option String) (i : String)
    (h : pairInv ctx) : pairInv (bareYearStep ctx msg p i).2.2 := by
  unfold bareYearStep
  repeat' split
  all_goals first | exact h | rfl

theorem pairInv_cliente_ref (ctx : Ctx) (v : Option String) (h : pairInv ctx) :
    pairInv { ctx with cliente_ref := v } := h

theorem pairInv_id_cliente (ctx : Ctx) (v : Option Nat) (h : pairInv ctx) :
    pairInv { ctx with id_cliente := v } := h

set_option maxHeartbeats 1600000 in
theorem handle_agent_pairInv (db : DB) (now : PDate) (ctx0 : Ctx) (message : String)
    (h : pairInv ctx0) : pairInv (handle_agent db now ctx0 message).ctx := by
  have h1 : pairInv (agentStage1 now ctx0 message).2.2 := by
    unfold agentStage1
    exact bareYearStep_pairInv _ _ _ _ h
  unfold handle_agent
  dsimp only
  repeat' split
  all_goals first
    | exact h1
    | (refine agentRespond_pairInv _ _ _ _ _ _ _ _ _ ?_; exact h1)

/-- Claim C5: for every session context reachable from the empty context
by any sequence of `handle_agent` calls (with arbitrary storage, dates and
messages), `pending_month` is present in the context if and only if
`pending_intent` is present. -/
theorem claim_C5_pending_pair_invariant (inputs : List (DB × PDate × String)) :
    (runAgentSeq inputs).pending_month.isSome
      = (runAgentSeq inputs).pending_intent.isSome := by
  suffices hgen : ∀ c : Ctx, pairInv c →
      pairInv (inputs.foldl (fun c inp => (handle_agent inp.1 inp.2.1 c inp.2.2).ctx) c) by
    exact hgen {} rfl
  induction inputs with
  | nil => exact fun c h => h
  | cons a t ih => exact fun c h => ih _ (handle_agent_pairInv _ _ _ _ h)

end Contabot
